import Mathlib

/-!
The unsubscribe path of stompngo: `Unsubscribe`, `UnsubscribeAuto`,
`deleteSubscription`

A shallow embedding of `unsubscribe.go`.  A call is a function from the
connection (together with the part of the heap it owns) to a `Result`: how
the call ended, the connection afterwards, and the events it emitted in
program order.  The two collaborators `checkHeaders` and `transmitCommon`
are parameters of `Unsubscribe`; `subsLock` appears as `lock` / `unlock`
events of a sequential execution that starts with the lock free.
-/

namespace Stompngo

/-- Modelled from the spec: the `Headers` type is declared outside
`unsubscribe.go`.  Spec section 3: an ordered sequence of (key, value)
string pairs in which keys may repeat. -/
abbrev Headers := List (String × String)

/-- Modelled from the spec: `Headers.Contains` is declared outside
`unsubscribe.go`.  Spec section 3: a "contains key" query returning the first
value and a presence flag (first occurrence wins).  For an absent key the
value is the empty string, the zero value of a Go string. -/
def Headers.Contains : Headers → String → String × Bool
  | [], _ => ("", false)
  | (k', v) :: t, k => if k' = k then (v, true) else Headers.Contains t k

/-- The error values `Unsubscribe` can return.  The four named constants are
the ones `unsubscribe.go` mentions; `other` stands for whatever else a
collaborator hands back. -/
inductive Error where
  | ECONBAD
  | EREQDIUNS
  | EUNOSID
  | EBADSID
  | other (msg : String)
  deriving DecidableEq, Repr

/-- Protocol level constant for STOMP 1.0. -/
def SPL_10 : String := "1.0"
/-- Protocol level constant for STOMP 1.1. -/
def SPL_11 : String := "1.1"
/-- Protocol level constant for STOMP 1.2. -/
def SPL_12 : String := "1.2"

/-- The wire command name. -/
def UNSUBSCRIBE : String := "UNSUBSCRIBE"

/-- A Go channel value: `none` is the nil channel, `some n` refers to the
channel object `n`. -/
abbrev Chan := Option Nat

/-- The subscription registry `c.subs`, a `map[string]chan MessageData`. -/
abbrev Subs := AList (fun _ : String => Chan)

/-- The fields of `Connection` that `unsubscribe.go` reads or writes, and
`closed`, the channel objects on which `close` has already been executed. -/
structure Connection where
  connected : Bool
  protocol : String
  subs : Subs
  closed : List Nat
  deriving DecidableEq

/-- What a call lets the outside observe, in program order. -/
inductive Event where
  | log (cmd : String) (phase : String) (h : Headers)
  | checkHeaders (h : Headers) (v : String)
  | lock
  | unlock
  | transmit (cmd : String) (h : Headers)
  | close (ch : Chan)
  deriving DecidableEq, Repr

/-- How a call ends: it returns (an `error`, `none` being Go's `nil`), or it
panics. -/
inductive Outcome where
  | returned (e : Option Error)
  | panicked (msg : String)
  deriving DecidableEq, Repr

/-- The result of running a call. -/
structure Result where
  outcome : Outcome
  conn : Connection
  trace : List Event
  deriving DecidableEq

/-- The map read `c.subs[id]`: the nil channel when `id` is not a key. -/
def Connection.subsAt (c : Connection) (id : String) : Chan :=
  (c.subs.lookup id).getD none

/-- The two-valued map read `_, ok := c.subs[id]`. -/
def Connection.hasSub (c : Connection) (id : String) : Bool :=
  (c.subs.lookup id).isSome

/-- Go's builtin `close`: closing the nil channel panics, closing a closed
channel panics, otherwise the channel object becomes closed. -/
def chanClose (closed : List Nat) : Chan → Except String (List Nat)
  | none => .error "close of nil channel"
  | some n => if n ∈ closed then .error "close of closed channel" else .ok (n :: closed)

/-- The method `deleteSubscription` (lines 117-122): under the lock, close
the channel read from the map, then delete the map entry.  A panic of `close`
leaves the function before `delete` and before `Unlock`. -/
def deleteSubscription (c : Connection) (id : String) : Result :=
  let ch := c.subsAt id
  match chanClose c.closed ch with
  | .error msg => ⟨.panicked msg, c, [.lock, .close ch]⟩
  | .ok closed' =>
    ⟨.returned none, { c with subs := c.subs.erase id, closed := closed' },
      [.lock, .close ch, .unlock]⟩

/-- The method `UnsubscribeAuto` (lines 102-112). -/
def UnsubscribeAuto (c : Connection) (id : String) : Result :=
  let ok := c.hasSub id
  if !ok then
    ⟨.returned (some .EBADSID), c, [.lock, .unlock]⟩
  else
    let d := deleteSubscription c id
    match d.outcome with
    | .panicked msg => ⟨.panicked msg, d.conn, [.lock, .unlock] ++ d.trace⟩
    | .returned _ => ⟨.returned none, d.conn, [.lock, .unlock] ++ d.trace⟩

/-- The `switch c.Protocol()` of `Unsubscribe` (lines 56-82), as a function
of the protocol level and of the three flags computed before it: `some o`
when a case leaves `Unsubscribe` with outcome `o`, `none` when control
reaches line 84. -/
def Unsubscribe.switch (protocol : String) (okd oki p : Bool) : Option Outcome :=
  if protocol = SPL_12 then
    if !oki then some (.returned (some .EUNOSID))
    else if !p then some (.returned (some .EBADSID))
    else none
  else if protocol = SPL_11 then
    if !oki then some (.returned (some .EUNOSID))
    else if !p then some (.returned (some .EBADSID))
    else none
  else if protocol = SPL_10 then
    if !okd then some (.returned (some .EUNOSID))
    else if oki then
      if !p then some (.returned (some .EBADSID)) else none
    else none
  else some (.panicked "unsubscribe version not supported")

/-- The end of `Unsubscribe` (lines 84-93): transmit, then delete the
subscription when an id was supplied.  `t` is the trace so far. -/
def Unsubscribe.finish (transmitCommon : String → Headers → Option Error)
    (c : Connection) (h : Headers) (sid : String) (oki : Bool) (t : List Event) : Result :=
  let t3 := t ++ [.transmit UNSUBSCRIBE h]
  match transmitCommon UNSUBSCRIBE h with
  | some e => ⟨.returned (some e), c, t3⟩
  | none =>
    if oki then
      let d := deleteSubscription c sid
      match d.outcome with
      | .panicked msg => ⟨.panicked msg, d.conn, t3 ++ d.trace⟩
      | .returned _ =>
        ⟨.returned none, d.conn, t3 ++ d.trace ++ [.log UNSUBSCRIBE "end" h]⟩
    else
      ⟨.returned none, c, t3 ++ [.log UNSUBSCRIBE "end" h]⟩

/-- The method `Unsubscribe` (lines 35-94).  `checkHeaders` and `transmitCommon` are the
two collaborators; each returns `none` for Go's `nil`. -/
def Unsubscribe (checkHeaders : Headers → String → Option Error)
    (transmitCommon : String → Headers → Option Error)
    (c : Connection) (h : Headers) : Result :=
  let t0 : List Event := [.log UNSUBSCRIBE "start" h]
  if !c.connected then
    ⟨.returned (some .ECONBAD), c, t0⟩
  else
    let t1 := t0 ++ [.checkHeaders h c.protocol]
    match checkHeaders h c.protocol with
    | some e => ⟨.returned (some e), c, t1⟩
    | none =>
      let okd := (Headers.Contains h "destination").2
      let sid := (Headers.Contains h "id").1
      let oki := (Headers.Contains h "id").2
      if !okd && !oki then
        ⟨.returned (some .EREQDIUNS), c, t1⟩
      else
        let p := c.hasSub sid
        let t2 := t1 ++ [.lock, .unlock]
        match Unsubscribe.switch c.protocol okd oki p with
        | some o => ⟨o, c, t2⟩
        | none => Unsubscribe.finish transmitCommon c h sid oki t2

/-- Whether an event is a call of the transmitter. -/
def Event.isTransmit : Event → Bool
  | .transmit _ _ => true
  | _ => false

/-- Whether an event is a call of `checkHeaders`. -/
def Event.isCheckHeaders : Event → Bool
  | .checkHeaders _ _ => true
  | _ => false

/-- Whether an event is a `close` of a channel. -/
def Event.isClose : Event → Bool
  | .close _ => true
  | _ => false

/-- A channel value is open: it is not nil and `close` has not been executed
on its channel object. -/
def Connection.chanOpen (c : Connection) : Chan → Bool
  | none => false
  | some n => !decide (n ∈ c.closed)

/-- The channels held by the registry, in entry order. -/
def Connection.chans (c : Connection) : List Chan :=
  c.subs.entries.map (fun e => e.2)

/-- The registry invariant of the data model (spec section 3): every
registered channel is open, and no channel is registered under two ids. -/
def Connection.RegistryInv (c : Connection) : Prop :=
  (∀ ch ∈ c.chans, c.chanOpen ch = true) ∧ c.chans.Nodup

instance (c : Connection) : Decidable c.RegistryInv := by
  unfold Connection.RegistryInv; exact inferInstance

/-- The number of entries of the registry. -/
def Connection.size (c : Connection) : Nat := c.subs.entries.length

/-- A small registry used in examples. -/
def subs1 : Subs := (AList.singleton "sub-1" (some 0)).insert "sub-2" (some 1)

/-- A connected 1.2 session over `subs1` with no channel closed yet. -/
def conn12 : Connection := ⟨true, SPL_12, subs1, []⟩

/-- A connected 1.1 session over `subs1`. -/
def conn11 : Connection := ⟨true, SPL_11, subs1, []⟩

/-- A connected 1.0 session over `subs1`. -/
def conn10 : Connection := ⟨true, SPL_10, subs1, []⟩

/-- A connected 1.0 session with an empty registry. -/
def conn10empty : Connection := ⟨true, SPL_10, ∅, []⟩

/-- A disconnected 1.2 session over `subs1`. -/
def connDown : Connection := ⟨false, SPL_12, subs1, []⟩

/-- A `checkHeaders` that accepts every header set. -/
def checkOk : Headers → String → Option Error := fun _ _ => none

/-- A `checkHeaders` that rejects every header set. -/
def checkBad : Headers → String → Option Error := fun _ _ => some (.other "bad headers")

/-- A transmitter that always succeeds. -/
def sendOk : String → Headers → Option Error := fun _ _ => none

/-- A transmitter that always fails. -/
def sendBad : String → Headers → Option Error := fun _ _ => some (.other "write failed")

/-- Headers with a destination and the id of a registered subscription. -/
def hdrBoth : Headers := [("destination", "/queue/a"), ("id", "sub-1")]

/-- Headers with a destination only. -/
def hdrDest : Headers := [("destination", "/queue/a")]

/-- Headers with the id of a registered subscription only. -/
def hdrId : Headers := [("id", "sub-1")]

/-- Headers with an id that is not registered and no destination. -/
def hdrUnknownId : Headers := [("id", "nope")]

/-- Headers with neither a destination nor an id. -/
def hdrNeither : Headers := [("receipt", "r-1")]

/-- Headers with a destination and an id that is not registered. -/
def hdrDestUnknownId : Headers := [("destination", "/queue/a"), ("id", "nope")]

/-- A connected session whose protocol level is none of 1.0, 1.1, 1.2. -/
def conn20 : Connection := ⟨true, "2.0", subs1, []⟩

/-- A disconnected session at an unsupported level, over `subs1`. -/
def connDown20 : Connection := ⟨false, "2.0", subs1, []⟩

/-- Whether an event is a call of a collaborator: the logger, `checkHeaders`
or the transmitter. -/
def Event.isCollaborator : Event → Bool
  | .log _ _ _ => true
  | .checkHeaders _ _ => true
  | .transmit _ _ => true
  | _ => false

/-- Replays a trace against `subsLock`, starting with the lock held or not:
`none` when the trace locks a held lock, unlocks a free lock, or calls a
collaborator while the lock is held; otherwise whether the lock is held at
the end of the trace. -/
def lockScan : Bool → List Event → Option Bool
  | held, [] => some held
  | held, .lock :: t => if held then none else lockScan true t
  | held, .unlock :: t => if held then lockScan false t else none
  | held, e :: t => if e.isCollaborator && held then none else lockScan held t

/-- The three kinds of ending the reference decision distinguishes. -/
inductive Verdict where
  | success
  | error (e : Error)
  | panic
  deriving DecidableEq, Repr

/-- The kind of an outcome: the panic message is forgotten. -/
def Outcome.kind : Outcome → Verdict
  | .returned none => .success
  | .returned (some e) => .error e
  | .panicked _ => .panic

/-- What the reference decision yields: how the call ends, the registry
afterwards, and the invocations of the transmitter. -/
structure Decision where
  verdict : Verdict
  subs : Subs
  transmits : List Event

/-- The reference decision for `Unsubscribe`, written from the eight steps of
the specification in their order; it is compared with `Unsubscribe` in
`Unsubscribe_eq_reference`. -/
def UnsubscribeReference (checkHeaders : Headers → String → Option Error)
    (transmit : String → Headers → Option Error) (c : Connection) (h : Headers) : Decision :=
  let hasDestination := (Headers.Contains h "destination").2
  let hasID := (Headers.Contains h "id").2
  let id := (Headers.Contains h "id").1
  -- (1) not connected
  if c.connected = false then ⟨.error .ECONBAD, c.subs, []⟩
  else
    -- (2) checkHeaders error
    match checkHeaders h c.protocol with
    | some e => ⟨.error e, c.subs, []⟩
    | none =>
      -- (3) neither destination nor id
      if hasDestination = false ∧ hasID = false then ⟨.error .EREQDIUNS, c.subs, []⟩
      -- (4) version 1.1 or 1.2
      else if (c.protocol = SPL_11 ∨ c.protocol = SPL_12) ∧ hasID = false then
        ⟨.error .EUNOSID, c.subs, []⟩
      else if (c.protocol = SPL_11 ∨ c.protocol = SPL_12) ∧ id ∉ c.subs then
        ⟨.error .EBADSID, c.subs, []⟩
      -- (5) version 1.0
      else if c.protocol = SPL_10 ∧ hasDestination = false then
        ⟨.error .EUNOSID, c.subs, []⟩
      else if c.protocol = SPL_10 ∧ hasID = true ∧ id ∉ c.subs then
        ⟨.error .EBADSID, c.subs, []⟩
      -- (6) any other version
      else if c.protocol ≠ SPL_10 ∧ c.protocol ≠ SPL_11 ∧ c.protocol ≠ SPL_12 then
        ⟨.panic, c.subs, []⟩
      else
        match transmit UNSUBSCRIBE h with
        -- (7) transmit error
        | some e => ⟨.error e, c.subs, [.transmit UNSUBSCRIBE h]⟩
        -- (8) success
        | none =>
          ⟨.success, if hasID = true then c.subs.erase id else c.subs,
            [.transmit UNSUBSCRIBE h]⟩

/-- One call of the exposed operations, with the collaborators it meets. -/
inductive Call where
  | unsubscribe (checkHeaders : Headers → String → Option Error)
      (transmitCommon : String → Headers → Option Error) (h : Headers)
  | unsubscribeAuto (id : String)

/-- Runs one call on a connection. -/
def Call.run : Call → Connection → Result
  | .unsubscribe chk tx h, c => Unsubscribe chk tx c h
  | .unsubscribeAuto id, c => UnsubscribeAuto c id

/-- Runs a sequence of calls one after the other: each call starts on the
connection the previous one left (also when that one panicked and the caller
recovered); the traces are concatenated. -/
def runCalls : List Call → Connection → Connection × List Event
  | [], c => (c, [])
  | k :: ks, c => ((runCalls ks (k.run c).conn).1, (k.run c).trace ++ (runCalls ks (k.run c).conn).2)

/-- The channels on which a trace executes `close`, in order. -/
def closes : List Event → List Chan
  | [] => []
  | .close ch :: t => ch :: closes t
  | _ :: t => closes t

/-- What a run from `c` to `c'` with trace `t` keeps of the close-once
discipline: the invariant holds at the end; entries are never added or
changed; an entry that left was closed by a `close` of the trace; no channel
is closed twice by the trace; every `close` was on a channel open at the
start; channels closed at the start stay closed, and nothing is closed but by
a `close` of the trace. -/
structure CloseOnce (c c' : Connection) (t : List Event) : Prop where
  inv : c'.RegistryInv
  sub : ∀ id ch, c'.subs.lookup id = some ch → c.subs.lookup id = some ch
  left : ∀ id ch, c.subs.lookup id = some ch → c'.subs.lookup id = none →
    ch ∈ closes t ∧ c'.chanOpen ch = false
  nodup : (closes t).Nodup
  fresh : ∀ ch ∈ closes t, ∃ n, ch = some n ∧ n ∉ c.closed ∧ n ∈ c'.closed
  mono : ∀ n ∈ c.closed, n ∈ c'.closed
  only : ∀ n ∈ c'.closed, n ∈ c.closed ∨ some n ∈ closes t

/-- A sequence of calls used in examples: an explicit unsubscribe of `sub-1`,
the same again, an automatic unsubscribe of `sub-1`, then of `sub-2`. -/
def fourCalls : List Call :=
  [.unsubscribe checkOk sendOk hdrBoth, .unsubscribe checkOk sendOk hdrBoth,
    .unsubscribeAuto "sub-1", .unsubscribeAuto "sub-2"]

/-- Modelled from the spec: `Headers.Clone` is declared outside
`unsubscribe.go`.  Spec section 3: a deep copy of the header set. -/
def Headers.Clone (h : Headers) : Headers := h.map (fun kv => (kv.1, kv.2))

/-- The header slices of the program, by address: a Go `Headers` value is a
reference to a backing array that a callee can write through. -/
abbrev HeaderHeap := List Headers

/-- The content of the slice at an address. -/
def HeaderHeap.read (m : HeaderHeap) (a : Nat) : Headers := m.getD a []

/-- Modelled from the spec: `transmitCommon` is declared outside
`unsubscribe.go`.  Spec section 6: the wire transmitter "internally clones
headers before use, so the caller's header set is never mutated by this
call".  The clone is a new slice at a fresh address; `wire` (building the
frame and writing it) works on the clone and may rewrite it: it answers with
an error or nil and with the content it leaves in the slice it was given. -/
def transmitCommon (wire : String → Headers → Option Error × Headers) (m : HeaderHeap)
    (cmd : String) (a : Nat) : Option Error × HeaderHeap :=
  let m1 := m ++ [Headers.Clone (m.read a)]
  let b := m.length
  let r := wire cmd (m1.read b)
  (r.1, m1.set b r.2)

/-- The method `Unsubscribe` called on the header slice at address `a` of the
heap `m`: the result of the call and the heap afterwards.  `checkHeaders` and
the logger read the slice; the heap changes only where `transmitCommon` ran. -/
def UnsubscribeAt (checkHeaders : Headers → String → Option Error)
    (wire : String → Headers → Option Error × Headers) (c : Connection) (m : HeaderHeap)
    (a : Nat) : Result × HeaderHeap :=
  let r := Unsubscribe checkHeaders (fun cmd _ => (transmitCommon wire m cmd a).1) c (m.read a)
  (r, if r.trace.any Event.isTransmit then (transmitCommon wire m UNSUBSCRIBE a).2 else m)

/-- A wire that succeeds and overwrites the header set it was given. -/
def wireScribble : String → Headers → Option Error × Headers :=
  fun _ _ => (none, [("content-length", "0")])

/-- A connected 1.2 session over `subs1` in which the channel of `sub-1` has
already been closed. -/
def connClosed : Connection := ⟨true, SPL_12, subs1, [0]⟩

/-- A registry in which `sub-1` and `sub-2` hold the same channel. -/
def subsShared : Subs := (AList.singleton "sub-1" (some 0)).insert "sub-2" (some 0)

/-- A connected 1.2 session over `subsShared` with no channel closed yet. -/
def connShared : Connection := ⟨true, SPL_12, subsShared, []⟩

/-! ## Helper lemmas -/

/-- When `deleteSubscription` returns, the id was registered with an open
channel, and the call closed that channel and erased the entry. -/
theorem deleteSubscription_returned {c : Connection} {id : String} {e : Option Error}
    (h : (deleteSubscription c id).outcome = .returned e) :
    ∃ n, c.subs.lookup id = some (some n) ∧ n ∉ c.closed ∧
      deleteSubscription c id =
        ⟨.returned none, { c with subs := c.subs.erase id, closed := n :: c.closed },
          [.lock, .close (some n), .unlock]⟩ := by
  unfold deleteSubscription Connection.subsAt at *
  cases hl : c.subs.lookup id with
  | none => simp [hl, chanClose] at h
  | some ch =>
    cases ch with
    | none => simp [hl, chanClose] at h
    | some n =>
      by_cases hn : n ∈ c.closed
      · simp [hl, chanClose, hn] at h
      · exact ⟨n, rfl, hn, by simp [hl, chanClose, hn]⟩

/-- When `deleteSubscription` panics, the connection is as it was. -/
theorem deleteSubscription_panicked {c : Connection} {id : String} {msg : String}
    (h : (deleteSubscription c id).outcome = .panicked msg) :
    (deleteSubscription c id).conn = c := by
  unfold deleteSubscription at *
  cases hc : chanClose c.closed (c.subsAt id) <;> simp_all

/-- The switch lets control through only for an id that is registered, or,
under 1.0, for no id at all. -/
theorem switch_eq_none {v : String} {okd oki p : Bool}
    (h : Unsubscribe.switch v okd oki p = none) :
    (v = SPL_10 ∨ v = SPL_11 ∨ v = SPL_12) ∧ (oki = true → p = true) ∧
      (v = SPL_10 → okd = true) ∧ (v ≠ SPL_10 → oki = true) := by
  unfold Unsubscribe.switch at h
  cases okd <;> cases oki <;> cases p <;> split_ifs at h <;>
    simp_all [SPL_10, SPL_11, SPL_12]

/-- The trace of `Unsubscribe` up to and including the call of `checkHeaders`. -/
def traceChecked (c : Connection) (h : Headers) : List Event :=
  [.log UNSUBSCRIBE "start" h, .checkHeaders h c.protocol]

/-- The trace of `Unsubscribe` up to and including the existence probe. -/
def traceProbed (c : Connection) (h : Headers) : List Event :=
  [.log UNSUBSCRIBE "start" h, .checkHeaders h c.protocol, .lock, .unlock]

/-- The five ways through `Unsubscribe`. -/
theorem Unsubscribe_cases (chk : Headers → String → Option Error)
    (tx : String → Headers → Option Error) (c : Connection) (h : Headers) :
    (c.connected = false ∧
      Unsubscribe chk tx c h = ⟨.returned (some .ECONBAD), c, [.log UNSUBSCRIBE "start" h]⟩) ∨
    (c.connected = true ∧ ∃ e, chk h c.protocol = some e ∧
      Unsubscribe chk tx c h = ⟨.returned (some e), c, traceChecked c h⟩) ∨
    (c.connected = true ∧ chk h c.protocol = none ∧
      (Headers.Contains h "destination").2 = false ∧ (Headers.Contains h "id").2 = false ∧
      Unsubscribe chk tx c h = ⟨.returned (some .EREQDIUNS), c, traceChecked c h⟩) ∨
    (c.connected = true ∧ chk h c.protocol = none ∧
      ((Headers.Contains h "destination").2 = true ∨ (Headers.Contains h "id").2 = true) ∧
      ∃ o, Unsubscribe.switch c.protocol (Headers.Contains h "destination").2
          (Headers.Contains h "id").2 (c.hasSub (Headers.Contains h "id").1) = some o ∧
        Unsubscribe chk tx c h = ⟨o, c, traceProbed c h⟩) ∨
    (c.connected = true ∧ chk h c.protocol = none ∧
      ((Headers.Contains h "destination").2 = true ∨ (Headers.Contains h "id").2 = true) ∧
      Unsubscribe.switch c.protocol (Headers.Contains h "destination").2
          (Headers.Contains h "id").2 (c.hasSub (Headers.Contains h "id").1) = none ∧
      Unsubscribe chk tx c h =
        Unsubscribe.finish tx c h (Headers.Contains h "id").1 (Headers.Contains h "id").2
          (traceProbed c h)) := by
  unfold Unsubscribe traceChecked traceProbed
  cases hc : c.connected
  · left; simp
  right
  cases hk : chk h c.protocol with
  | some e => left; simp
  | none =>
    right
    cases hd : (Headers.Contains h "destination").2 <;>
    cases hi : (Headers.Contains h "id").2 <;>
    cases hs : Unsubscribe.switch c.protocol (Headers.Contains h "destination").2
          (Headers.Contains h "id").2 (c.hasSub (Headers.Contains h "id").1) <;>
    simp_all

/-- The three ways through the end of `Unsubscribe`. -/
theorem finish_cases (tx : String → Headers → Option Error) (c : Connection) (h : Headers)
    (sid : String) (oki : Bool) (t : List Event) :
    (∃ e, tx UNSUBSCRIBE h = some e ∧
      Unsubscribe.finish tx c h sid oki t =
        ⟨.returned (some e), c, t ++ [.transmit UNSUBSCRIBE h]⟩) ∨
    (tx UNSUBSCRIBE h = none ∧ oki = false ∧
      Unsubscribe.finish tx c h sid oki t =
        ⟨.returned none, c, t ++ [.transmit UNSUBSCRIBE h, .log UNSUBSCRIBE "end" h]⟩) ∨
    (tx UNSUBSCRIBE h = none ∧ oki = true ∧
      ∃ n, c.subs.lookup sid = some (some n) ∧ n ∉ c.closed ∧
        Unsubscribe.finish tx c h sid oki t =
          ⟨.returned none, { c with subs := c.subs.erase sid, closed := n :: c.closed },
            t ++ [.transmit UNSUBSCRIBE h, .lock, .close (some n), .unlock,
              .log UNSUBSCRIBE "end" h]⟩) ∨
    (tx UNSUBSCRIBE h = none ∧ oki = true ∧
      ∃ msg, (deleteSubscription c sid).outcome = .panicked msg ∧
        Unsubscribe.finish tx c h sid oki t =
          ⟨.panicked msg, c, t ++ [.transmit UNSUBSCRIBE h] ++ (deleteSubscription c sid).trace⟩) := by
  unfold Unsubscribe.finish
  cases ht : tx UNSUBSCRIBE h with
  | some e => left; simp
  | none =>
    right
    cases oki with
    | false => left; simp
    | true =>
      right
      cases hd : (deleteSubscription c sid).outcome with
      | panicked msg =>
        right
        have := deleteSubscription_panicked hd
        simp [hd, this]
      | returned e =>
        left
        obtain ⟨n, hl, hn, heq⟩ := deleteSubscription_returned hd
        refine ⟨rfl, rfl, n, hl, hn, ?_⟩
        simp [heq]

/-- A registered channel is among the channels of the registry. -/
theorem mem_chans_of_lookup {c : Connection} {id : String} {ch : Chan}
    (h : c.subs.lookup id = some ch) : ch ∈ c.chans := by
  have hm : (⟨id, ch⟩ : Sigma (fun _ : String => Chan)) ∈ c.subs.entries :=
    AList.mem_lookup_iff.1 h
  exact List.mem_map.2 ⟨_, hm, rfl⟩

/-- Under the invariant a channel is registered under one id only. -/
theorem id_unique_of_nodup {c : Connection} (hn : c.chans.Nodup) {a b : String} {ch : Chan}
    (ha : c.subs.lookup a = some ch) (hb : c.subs.lookup b = some ch) : a = b := by
  have hma : (⟨a, ch⟩ : Sigma (fun _ : String => Chan)) ∈ c.subs.entries :=
    AList.mem_lookup_iff.1 ha
  have hmb : (⟨b, ch⟩ : Sigma (fun _ : String => Chan)) ∈ c.subs.entries :=
    AList.mem_lookup_iff.1 hb
  have := List.inj_on_of_nodup_map hn hma hmb rfl
  exact congrArg Sigma.fst this

/-- Under the invariant, closing and erasing the channel of `sid` leaves the
channel of every other entry open. -/
theorem others_open_after_delete {c : Connection} (hinv : c.RegistryInv) {sid : String} {n : Nat}
    (hl : c.subs.lookup sid = some (some n)) {id : String} {ch : Chan} (hne : id ≠ sid)
    (hid : c.subs.lookup id = some ch) (c' : Connection) (hc' : c'.closed = n :: c.closed) :
    c'.chanOpen ch = true := by
  have hopen := hinv.1 ch (mem_chans_of_lookup hid)
  cases ch with
  | none => simp [Connection.chanOpen] at hopen
  | some m =>
    have hmn : m ≠ n := by
      rintro rfl
      exact hne (id_unique_of_nodup hinv.2 hid hl)
    simp [Connection.chanOpen] at hopen
    simp [Connection.chanOpen, hc', hmn, hopen]

/-- Erasing a registered id removes exactly one entry. -/
theorem length_erase_of_mem {s : Subs} {id : String} (h : id ∈ s) :
    (s.erase id).entries.length + 1 = s.entries.length := by
  have hk : ∀ t : Subs, t.entries.length = t.keys.length := by
    intro t
    simp [AList.keys, List.keys]
  have hm : id ∈ s.keys := AList.mem_keys.1 h
  have hpos : 0 < s.keys.length := List.length_pos_of_mem hm
  rw [hk, hk, AList.keys_erase, List.length_erase_of_mem hm]
  omega

/-- With an id supplied but not registered, under a supported protocol level
and (for 1.0) a destination, the switch answers EBADSID. -/
theorem switch_unknown_id {v : String} {okd : Bool}
    (hv : v = SPL_10 ∨ v = SPL_11 ∨ v = SPL_12) (hd : v = SPL_10 → okd = true) :
    Unsubscribe.switch v okd true false = some (.returned (some .EBADSID)) := by
  unfold Unsubscribe.switch
  rcases hv with rfl | rfl | rfl
  · simp [hd rfl, SPL_10, SPL_11, SPL_12]
  · simp [SPL_11, SPL_12]
  · simp

/-- Once control is past the header checks, `Unsubscribe` is the switch
followed by the end of the function. -/
theorem Unsubscribe_past_checks {chk : Headers → String → Option Error}
    {tx : String → Headers → Option Error} {c : Connection} {h : Headers}
    (hc : c.connected = true) (hk : chk h c.protocol = none)
    (hdi : (Headers.Contains h "destination").2 = true ∨ (Headers.Contains h "id").2 = true) :
    Unsubscribe chk tx c h =
      match Unsubscribe.switch c.protocol (Headers.Contains h "destination").2
          (Headers.Contains h "id").2 (c.hasSub (Headers.Contains h "id").1) with
      | some o => ⟨o, c, traceProbed c h⟩
      | none =>
        Unsubscribe.finish tx c h (Headers.Contains h "id").1 (Headers.Contains h "id").2
          (traceProbed c h) := by
  unfold Unsubscribe traceProbed
  rcases hdi with hd | hi
  · simp [hc, hk, hd]
  · simp [hc, hk, hi]

/-- On a session that is not connected `Unsubscribe` stops at line 38. -/
theorem Unsubscribe_not_connected_aux (chk : Headers → String → Option Error)
    (tx : String → Headers → Option Error) (c : Connection) (h : Headers)
    (hc : c.connected = false) :
    Unsubscribe chk tx c h = ⟨.returned (some .ECONBAD), c, [.log UNSUBSCRIBE "start" h]⟩ := by
  unfold Unsubscribe
  simp [hc]

/-- The method `deleteSubscription` reads the registry and the closed
channels only: on two connections that agree on both it ends the same way,
emits the same events and leaves the same registry and closed channels. -/
theorem deleteSubscription_congr {c1 c2 : Connection} (hs : c1.subs = c2.subs)
    (hcl : c1.closed = c2.closed) (id : String) :
    (deleteSubscription c1 id).outcome = (deleteSubscription c2 id).outcome ∧
    (deleteSubscription c1 id).trace = (deleteSubscription c2 id).trace ∧
    (deleteSubscription c1 id).conn.subs = (deleteSubscription c2 id).conn.subs ∧
    (deleteSubscription c1 id).conn.closed = (deleteSubscription c2 id).conn.closed := by
  unfold deleteSubscription Connection.subsAt
  rw [hs, hcl]
  cases hcc : chanClose c2.closed ((AList.lookup id c2.subs).getD none) <;> simp [hs, hcl, hcc]

/-- The end of `Unsubscribe` reads the registry and the closed channels only. -/
theorem finish_congr (tx : String → Headers → Option Error) {c1 c2 : Connection}
    (hs : c1.subs = c2.subs) (hcl : c1.closed = c2.closed) (h : Headers) (sid : String)
    (oki : Bool) {t1 t2 : List Event}
    (ht : t1.filter Event.isTransmit = t2.filter Event.isTransmit)
    (hc : t1.filter Event.isClose = t2.filter Event.isClose) :
    (Unsubscribe.finish tx c1 h sid oki t1).outcome =
      (Unsubscribe.finish tx c2 h sid oki t2).outcome ∧
    (Unsubscribe.finish tx c1 h sid oki t1).trace.filter Event.isTransmit =
      (Unsubscribe.finish tx c2 h sid oki t2).trace.filter Event.isTransmit ∧
    (Unsubscribe.finish tx c1 h sid oki t1).trace.filter Event.isClose =
      (Unsubscribe.finish tx c2 h sid oki t2).trace.filter Event.isClose ∧
    (Unsubscribe.finish tx c1 h sid oki t1).conn.subs =
      (Unsubscribe.finish tx c2 h sid oki t2).conn.subs ∧
    (Unsubscribe.finish tx c1 h sid oki t1).conn.closed =
      (Unsubscribe.finish tx c2 h sid oki t2).conn.closed := by
  obtain ⟨ho, htr, hsub, hclo⟩ := deleteSubscription_congr hs hcl sid
  unfold Unsubscribe.finish
  cases tx UNSUBSCRIBE h with
  | some e => simp [ht, hc, hs, hcl]
  | none =>
    cases oki with
    | false => simp [ht, hc, hs, hcl]
    | true =>
      simp only [if_true]
      rw [ho, htr]
      cases (deleteSubscription c2 sid).outcome <;> simp [ht, hc, hsub, hclo]

/-- The two ways through `deleteSubscription`: `close` panics and nothing
else happens, or the channel read from the map is open and the call closes
it, erases the entry and unlocks. -/
theorem deleteSubscription_shape (c : Connection) (id : String) :
    (∃ msg, deleteSubscription c id = ⟨.panicked msg, c, [.lock, .close (c.subsAt id)]⟩) ∨
    (∃ n, c.subs.lookup id = some (some n) ∧ n ∉ c.closed ∧
      deleteSubscription c id =
        ⟨.returned none, { c with subs := c.subs.erase id, closed := n :: c.closed },
          [.lock, .close (some n), .unlock]⟩) := by
  cases ho : (deleteSubscription c id).outcome with
  | returned e =>
    right
    obtain ⟨n, hl, hn, heq⟩ := deleteSubscription_returned ho
    exact ⟨n, hl, hn, heq⟩
  | panicked msg =>
    left
    refine ⟨msg, ?_⟩
    unfold deleteSubscription at ho ⊢
    cases hcc : chanClose c.closed (c.subsAt id) <;> simp_all

/-- Reading the map at a registered id gives the registered channel. -/
theorem subsAt_of_lookup {c : Connection} {id : String} {ch : Chan}
    (h : c.subs.lookup id = some ch) : c.subsAt id = ch := by
  simp [Connection.subsAt, h]

/-- A successful probe means the id is a key of the registry. -/
theorem lookup_of_hasSub {c : Connection} {id : String} (h : c.hasSub id = true) :
    id ∈ c.subs ∧ c.subs.lookup id = some (c.subsAt id) := by
  unfold Connection.hasSub at h
  obtain ⟨ch, hch⟩ := Option.isSome_iff_exists.1 h
  refine ⟨AList.lookup_isSome.1 h, ?_⟩
  rw [subsAt_of_lookup hch, hch]

/-- The three ways through `UnsubscribeAuto`. -/
theorem UnsubscribeAuto_cases (c : Connection) (id : String) :
    (id ∉ c.subs ∧
      UnsubscribeAuto c id = ⟨.returned (some .EBADSID), c, [.lock, .unlock]⟩) ∨
    (id ∈ c.subs ∧ ∃ msg,
      UnsubscribeAuto c id =
        ⟨.panicked msg, c, [.lock, .unlock, .lock, .close (c.subsAt id)]⟩) ∨
    (id ∈ c.subs ∧ ∃ n, c.subs.lookup id = some (some n) ∧ n ∉ c.closed ∧
      UnsubscribeAuto c id =
        ⟨.returned none, { c with subs := c.subs.erase id, closed := n :: c.closed },
          [.lock, .unlock, .lock, .close (some n), .unlock]⟩) := by
  by_cases hid : id ∈ c.subs
  · right
    have hp : c.hasSub id = true := by
      unfold Connection.hasSub
      exact AList.lookup_isSome.2 hid
    rcases deleteSubscription_shape c id with ⟨msg, hd⟩ | ⟨n, hl, hn, hd⟩
    · left
      refine ⟨hid, msg, ?_⟩
      unfold UnsubscribeAuto
      simp [hp, hd]
    · right
      refine ⟨hid, n, hl, hn, ?_⟩
      unfold UnsubscribeAuto
      simp [hp, hd]
  · left
    refine ⟨hid, ?_⟩
    unfold UnsubscribeAuto Connection.hasSub
    simp [AList.lookup_eq_none.2 hid]

/-- For an id that is not a key of the registry the map read gives the nil
channel, `close` panics, and `deleteSubscription` stops there: the registry is
as it was and `subsLock` is still held. -/
theorem deleteSubscription_absent (c : Connection) (id : String) (hid : id ∉ c.subs) :
    deleteSubscription c id = ⟨.panicked "close of nil channel", c, [.lock, .close none]⟩ := by
  unfold deleteSubscription Connection.subsAt
  simp [AList.lookup_eq_none.2 hid, chanClose]

/-- Every `close` event of `deleteSubscription` is on the channel read from
the map at the id. -/
theorem close_mem_deleteSubscription {c : Connection} {id : String} {ch : Chan}
    (h : Event.close ch ∈ (deleteSubscription c id).trace) : ch = c.subsAt id := by
  rcases deleteSubscription_shape c id with ⟨msg, hd⟩ | ⟨n, hl, _, hd⟩
  · rw [hd] at h
    simpa using h
  · rw [hd] at h
    rw [subsAt_of_lookup hl]
    simpa using h

/-- Under the registry invariant the channel read at a registered id is open. -/
theorem open_of_RegistryInv {c : Connection} (hinv : c.RegistryInv) {id : String}
    (hp : c.hasSub id = true) : c.chanOpen (c.subsAt id) = true :=
  hinv.1 _ (mem_chans_of_lookup (lookup_of_hasSub hp).2)

/-- When the channel read at the id is open, `deleteSubscription` returns. -/
theorem deleteSubscription_of_open {c : Connection} {id : String}
    (ho : c.chanOpen (c.subsAt id) = true) :
    (deleteSubscription c id).outcome = .returned none := by
  rcases deleteSubscription_shape c id with ⟨msg, hd⟩ | ⟨n, _, _, hd⟩
  · exfalso
    unfold deleteSubscription at hd
    cases hch : c.subsAt id with
    | none => simp [hch, Connection.chanOpen] at ho
    | some n =>
      have hn : n ∉ c.closed := by simpa [hch, Connection.chanOpen] using ho
      simp [hch, chanClose, hn] at hd
  · rw [hd]

/-- The switch of `Unsubscribe` as a chain of tests in the order of steps 4,
5 and 6 of the reference decision. -/
theorem switch_spec (v : String) (okd oki p : Bool) :
    Unsubscribe.switch v okd oki p =
      if (v = SPL_11 ∨ v = SPL_12) ∧ oki = false then some (.returned (some .EUNOSID))
      else if (v = SPL_11 ∨ v = SPL_12) ∧ p = false then some (.returned (some .EBADSID))
      else if v = SPL_10 ∧ okd = false then some (.returned (some .EUNOSID))
      else if v = SPL_10 ∧ oki = true ∧ p = false then some (.returned (some .EBADSID))
      else if v ≠ SPL_10 ∧ v ≠ SPL_11 ∧ v ≠ SPL_12 then
        some (.panicked "unsubscribe version not supported")
      else none := by
  unfold Unsubscribe.switch
  by_cases h12 : v = SPL_12
  · subst h12
    cases okd <;> cases oki <;> cases p <;> simp [SPL_10, SPL_11, SPL_12]
  · by_cases h11 : v = SPL_11
    · subst h11
      cases okd <;> cases oki <;> cases p <;> simp [SPL_10, SPL_11, SPL_12]
    · by_cases h10 : v = SPL_10
      · subst h10
        cases okd <;> cases oki <;> cases p <;> simp [SPL_10, SPL_11, SPL_12]
      · cases okd <;> cases oki <;> cases p <;> simp [h10, h11, h12]

/-- The `close`s of a concatenation. -/
theorem closes_append (t1 t2 : List Event) : closes (t1 ++ t2) = closes t1 ++ closes t2 := by
  induction t1 with
  | nil => rfl
  | cons e t ih => cases e <;> simp [closes, ih]

/-- A run that changes nothing and closes nothing keeps the discipline. -/
theorem CloseOnce.same {c : Connection} {t : List Event} (hinv : c.RegistryInv)
    (ht : closes t = []) : CloseOnce c c t where
  inv := hinv
  sub := fun _ _ h => h
  left := fun _ _ h h' => by rw [h] at h'; exact Option.noConfusion h'
  nodup := by rw [ht]; exact List.nodup_nil
  fresh := by intro ch hch; rw [ht] at hch; simp at hch
  mono := fun _ h => h
  only := fun _ h => Or.inl h

/-- A channel is among the channels of the registry exactly when it is
registered under some id. -/
theorem mem_chans_iff {c : Connection} {ch : Chan} :
    ch ∈ c.chans ↔ ∃ id, c.subs.lookup id = some ch := by
  constructor
  · intro h
    obtain ⟨e, he, rfl⟩ := List.mem_map.1 h
    exact ⟨e.1, AList.mem_lookup_iff.2 he⟩
  · rintro ⟨id, h⟩
    exact mem_chans_of_lookup h

/-- A lookup that succeeds after an erase is a lookup at another id that
succeeded before. -/
theorem lookup_erase_some {s : Subs} {id k : String} {ch : Chan}
    (h : (s.erase id).lookup k = some ch) : k ≠ id ∧ s.lookup k = some ch := by
  have hk : k ≠ id := by
    rintro rfl
    rw [AList.lookup_erase] at h
    exact Option.noConfusion h
  exact ⟨hk, by rw [← AList.lookup_erase_ne hk]; exact h⟩

/-- Closing the open channel of a registered id and erasing the entry keeps
the discipline. -/
theorem CloseOnce.delete {c : Connection} {t : List Event} (hinv : c.RegistryInv)
    {id : String} {n : Nat} (hl : c.subs.lookup id = some (some n)) (hn : n ∉ c.closed)
    (ht : closes t = [some n]) :
    CloseOnce c { c with subs := c.subs.erase id, closed := n :: c.closed } t where
  inv := by
    constructor
    · intro ch hch
      obtain ⟨k, hk⟩ := mem_chans_iff.1 hch
      obtain ⟨hne, hk'⟩ := lookup_erase_some hk
      exact others_open_after_delete hinv hl hne hk' _ rfl
    · have hsub : (c.subs.erase id).entries.Sublist c.subs.entries := List.kerase_sublist _ _
      exact hinv.2.sublist (hsub.map _)
  sub := fun k ch h => (lookup_erase_some h).2
  left := by
    intro k ch h h'
    have hk : k = id := by
      by_contra hne
      rw [show (AList.lookup k (AList.erase id c.subs)) = AList.lookup k c.subs from
        AList.lookup_erase_ne hne, h] at h'
      exact Option.noConfusion h'
    subst hk
    rw [hl] at h
    cases h
    simp [ht, Connection.chanOpen]
  nodup := by rw [ht]; exact List.nodup_singleton _
  fresh := by
    intro ch hch
    rw [ht] at hch
    exact ⟨n, by simpa using hch, hn, by simp⟩
  mono := fun m hm => List.mem_cons_of_mem _ hm
  only := by
    intro m hm
    rcases List.mem_cons.1 hm with rfl | hm
    · right; simp [ht]
    · left; exact hm

/-- Two runs in a row keep the discipline. -/
theorem CloseOnce.append {c c1 c2 : Connection} {t1 t2 : List Event}
    (h1 : CloseOnce c c1 t1) (h2 : CloseOnce c1 c2 t2) : CloseOnce c c2 (t1 ++ t2) where
  inv := h2.inv
  sub := fun k ch h => h1.sub k ch (h2.sub k ch h)
  left := by
    intro k ch h h'
    rw [closes_append]
    cases hk : c1.subs.lookup k with
    | none =>
      obtain ⟨hm, _⟩ := h1.left k ch h hk
      obtain ⟨n, rfl, _, hn1⟩ := h1.fresh ch hm
      exact ⟨List.mem_append_left _ hm, by simp [Connection.chanOpen, h2.mono n hn1]⟩
    | some ch1 =>
      have : ch1 = ch := by
        have := h1.sub k ch1 hk
        rw [h] at this
        exact (Option.some.inj this).symm
      subst this
      obtain ⟨hm, ho⟩ := h2.left k ch1 hk h'
      exact ⟨List.mem_append_right _ hm, ho⟩
  nodup := by
    rw [closes_append]
    refine List.Nodup.append h1.nodup h2.nodup ?_
    intro ch hm1 hm2
    obtain ⟨n, rfl, _, hn1⟩ := h1.fresh ch hm1
    obtain ⟨m, hm, hn2, _⟩ := h2.fresh (some n) hm2
    cases hm
    exact hn2 hn1
  fresh := by
    intro ch hch
    rw [closes_append] at hch
    rcases List.mem_append.1 hch with hm | hm
    · obtain ⟨n, rfl, hn, hn1⟩ := h1.fresh ch hm
      exact ⟨n, rfl, hn, h2.mono n hn1⟩
    · obtain ⟨n, rfl, hn, hn2⟩ := h2.fresh ch hm
      exact ⟨n, rfl, fun hc => hn (h1.mono n hc), hn2⟩
  mono := fun n hn => h2.mono n (h1.mono n hn)
  only := by
    intro n hn
    rw [closes_append]
    rcases h2.only n hn with h | h
    · rcases h1.only n h with h | h
      · exact Or.inl h
      · exact Or.inr (List.mem_append_left _ h)
    · exact Or.inr (List.mem_append_right _ h)

/-- One call from a connection that satisfies the invariant keeps the
discipline. -/
theorem Call.run_closeOnce (k : Call) {c : Connection} (hinv : c.RegistryInv) :
    CloseOnce c (k.run c).conn (k.run c).trace := by
  cases k with
  | unsubscribeAuto id =>
    simp only [Call.run]
    rcases UnsubscribeAuto_cases c id with ⟨_, hr⟩ | ⟨hid, msg, hr⟩ | ⟨_, n, hl, hn, hr⟩
    · rw [hr]
      exact CloseOnce.same hinv (by simp [closes])
    · exfalso
      have hp : c.hasSub id = true := AList.lookup_isSome.2 hid
      have hd := deleteSubscription_of_open (open_of_RegistryInv hinv hp)
      have ho : (UnsubscribeAuto c id).outcome = .returned none := by
        unfold UnsubscribeAuto
        simp [hp, hd]
      rw [hr] at ho
      exact Outcome.noConfusion ho
    · rw [hr]
      exact CloseOnce.delete hinv hl hn (by simp [closes])
  | unsubscribe chk tx h =>
    simp only [Call.run]
    rcases Unsubscribe_cases chk tx c h with ⟨_, hr⟩ | ⟨_, e, _, hr⟩ | ⟨_, _, _, _, hr⟩ |
      ⟨_, _, _, o, hs, hr⟩ | ⟨_, _, _, hs, hr⟩
    · rw [hr]; exact CloseOnce.same hinv (by simp [closes])
    · rw [hr]; exact CloseOnce.same hinv (by simp [closes, traceChecked])
    · rw [hr]; exact CloseOnce.same hinv (by simp [closes, traceChecked])
    · rw [hr]; exact CloseOnce.same hinv (by simp [closes, traceProbed])
    · obtain ⟨_, hp, _, _⟩ := switch_eq_none hs
      rw [hr]
      rcases finish_cases tx c h (Headers.Contains h "id").1 (Headers.Contains h "id").2
        (traceProbed c h) with ⟨e, _, hF⟩ | ⟨_, _, hF⟩ | ⟨_, _, n, hl, hn, hF⟩ |
        ⟨_, hi, msg, hdel, _⟩
      · rw [hF]; exact CloseOnce.same hinv (by simp [closes, traceProbed])
      · rw [hF]; exact CloseOnce.same hinv (by simp [closes, traceProbed])
      · rw [hF]; exact CloseOnce.delete hinv hl hn (by simp [closes, traceProbed])
      · exfalso
        rw [deleteSubscription_of_open (open_of_RegistryInv hinv (hp hi))] at hdel
        exact Outcome.noConfusion hdel

/-- Every finite sequence of calls from a connection that satisfies the
invariant keeps the discipline. -/
theorem runCalls_closeOnce (ks : List Call) :
    ∀ {c : Connection}, c.RegistryInv → CloseOnce c (runCalls ks c).1 (runCalls ks c).2 := by
  induction ks with
  | nil =>
    intro c hinv
    exact CloseOnce.same hinv rfl
  | cons k ks ih =>
    intro c hinv
    have h1 := k.run_closeOnce hinv
    exact h1.append (ih h1.inv)

/-- The transmitter invocations of a run of `Unsubscribe` are none, or one
with UNSUBSCRIBE and the headers the caller passed. -/
theorem transmits_of_Unsubscribe (chk : Headers → String → Option Error)
    (tx : String → Headers → Option Error) (c : Connection) (h : Headers) :
    (Unsubscribe chk tx c h).trace.filter Event.isTransmit = [] ∨
    (Unsubscribe chk tx c h).trace.filter Event.isTransmit = [.transmit UNSUBSCRIBE h] := by
  rcases Unsubscribe_cases chk tx c h with ⟨_, hr⟩ | ⟨_, e, _, hr⟩ | ⟨_, _, _, _, hr⟩ |
    ⟨_, _, _, o, hs, hr⟩ | ⟨_, _, _, hs, hr⟩
  · left; rw [hr]; simp [Event.isTransmit]
  · left; rw [hr]; simp [traceChecked, Event.isTransmit]
  · left; rw [hr]; simp [traceChecked, Event.isTransmit]
  · left; rw [hr]; simp [traceProbed, Event.isTransmit]
  · right
    rw [hr]
    rcases finish_cases tx c h (Headers.Contains h "id").1 (Headers.Contains h "id").2
      (traceProbed c h) with ⟨e, _, hF⟩ | ⟨_, _, hF⟩ | ⟨_, _, n, _, _, hF⟩ |
      ⟨_, _, msg, _, hF⟩
    · rw [hF]; simp [traceProbed, Event.isTransmit]
    · rw [hF]; simp [traceProbed, Event.isTransmit]
    · rw [hF]; simp [traceProbed, Event.isTransmit]
    · rw [hF]
      rcases deleteSubscription_shape c (Headers.Contains h "id").1 with
        ⟨m, hsh⟩ | ⟨n, _, _, hsh⟩ <;>
        rw [hsh] <;> simp [traceProbed, Event.isTransmit]

/-- The transmitter of the model works on a clone: the slices that existed
before the call keep their content. -/
theorem transmitCommon_read (wire : String → Headers → Option Error × Headers)
    (m : HeaderHeap) (cmd : String) (a b : Nat) (hb : b < m.length) :
    HeaderHeap.read (transmitCommon wire m cmd a).2 b = HeaderHeap.read m b := by
  have hne : m.length ≠ b := Nat.ne_of_gt hb
  simp [transmitCommon, HeaderHeap.read, List.getD_eq_getElem?_getD, List.getElem?_set, hne,
    List.getElem?_append_left hb]

/-- The replay does reject a trace that transmits under the lock, and one
that returns to a collaborator before the unlock. -/
theorem lockScan_rejects :
    lockScan false [.lock, .transmit UNSUBSCRIBE hdrBoth, .unlock] = none ∧
    lockScan false [.lock, .close (some 0), .log UNSUBSCRIBE "end" hdrBoth] = none ∧
    lockScan false [.lock, .lock] = none ∧
    lockScan false [.unlock] = none ∧
    lockScan false [.lock, .close (some 0), .unlock, .log UNSUBSCRIBE "end" hdrBoth] =
      some false := by
  decide

/-! ## The claims -/

/-- C1: when `Unsubscribe` returns success on headers whose `id` value is
`sid`, the transmitter was invoked exactly once, with command UNSUBSCRIBE and
the caller's headers; the registry afterwards is the original one with the
entry of `sid` erased; the channel that was registered under `sid` was open
and is now closed, and it is the only channel the call closed; every other
entry is unchanged, and, on a registry that satisfies the data-model
invariant, the channel of every other entry is still open.  (Success already
forces a supported protocol level and a registered `sid`.) -/
theorem Unsubscribe_success_removes_and_closes (chk : Headers → String → Option Error)
    (tx : String → Headers → Option Error) (c : Connection) (h : Headers) (sid : String)
    (hid : Headers.Contains h "id" = (sid, true))
    (hok : (Unsubscribe chk tx c h).outcome = .returned none) :
    (Unsubscribe chk tx c h).trace.filter Event.isTransmit = [.transmit UNSUBSCRIBE h] ∧
    (c.protocol = SPL_10 ∨ c.protocol = SPL_11 ∨ c.protocol = SPL_12) ∧
    sid ∈ c.subs ∧
    (Unsubscribe chk tx c h).conn.subs = c.subs.erase sid ∧
    sid ∉ (Unsubscribe chk tx c h).conn.subs ∧
    (∃ n, c.subs.lookup sid = some (some n) ∧ n ∉ c.closed ∧
      (Unsubscribe chk tx c h).conn.closed = n :: c.closed) ∧
    (∀ id, id ≠ sid → (Unsubscribe chk tx c h).conn.subs.lookup id = c.subs.lookup id) ∧
    (c.RegistryInv → ∀ id ch, id ≠ sid → c.subs.lookup id = some ch →
      (Unsubscribe chk tx c h).conn.chanOpen ch = true) := by
  have hi1 : (Headers.Contains h "id").1 = sid := by rw [hid]
  have hi2 : (Headers.Contains h "id").2 = true := by rw [hid]
  rcases Unsubscribe_cases chk tx c h with ⟨_, hU⟩ | ⟨_, e, _, hU⟩ | ⟨_, _, _, _, hU⟩ |
    ⟨_, _, _, o, hs, hU⟩ | ⟨_, _, _, hs, hU⟩
  · rw [hU] at hok; simp at hok
  · rw [hU] at hok; simp at hok
  · rw [hU] at hok; simp at hok
  · rw [hU] at hok
    simp only at hok
    subst hok
    unfold Unsubscribe.switch at hs
    split_ifs at hs <;> simp_all
  · rw [hi1, hi2] at hU hs
    have hv := (switch_eq_none hs).1
    rcases finish_cases tx c h sid true (traceProbed c h) with ⟨e, _, hF⟩ | ⟨_, hf, _⟩ |
      ⟨_, _, n, hl, hn, hF⟩ | ⟨_, _, msg, _, hF⟩
    · rw [hU, hF] at hok; simp at hok
    · simp at hf
    · rw [hU, hF]
      have hmem : sid ∈ c.subs := by
        rw [← AList.lookup_isSome, hl]; rfl
      refine ⟨by simp [traceProbed, Event.isTransmit], hv, hmem, rfl, ?_, ⟨n, hl, hn, rfl⟩, ?_, ?_⟩
      · simp [AList.mem_erase]
      · intro id hne
        exact AList.lookup_erase_ne hne
      · intro hinv id ch hne hch
        exact others_open_after_delete hinv hl hne hch _ rfl
    · rw [hU, hF] at hok; simp at hok

/-- C1 at version 1.2, headers `destination: /queue/a, id: sub-1`, registry
holding `sub-1` and `sub-2`. -/
theorem Unsubscribe_success_removes_and_closes_witness :
    Headers.Contains hdrBoth "id" = ("sub-1", true) ∧
    (Unsubscribe checkOk sendOk conn12 hdrBoth).outcome = .returned none ∧
    (Unsubscribe checkOk sendOk conn12 hdrBoth).trace.filter Event.isTransmit =
      [.transmit UNSUBSCRIBE hdrBoth] ∧
    (Unsubscribe checkOk sendOk conn12 hdrBoth).conn.subs = conn12.subs.erase "sub-1" ∧
    "sub-1" ∉ (Unsubscribe checkOk sendOk conn12 hdrBoth).conn.subs ∧
    conn12.RegistryInv ∧
    (Unsubscribe checkOk sendOk conn12 hdrBoth).conn.chanOpen (some 1) = true :=
  have w := Unsubscribe_success_removes_and_closes checkOk sendOk conn12 hdrBoth "sub-1"
    (by decide) (by decide)
  ⟨by decide, by decide, w.1, w.2.2.2.1, w.2.2.2.2.1, by decide,
    w.2.2.2.2.2.2.2 (by decide) "sub-2" (some 1) (by decide) (by decide)⟩

/-- C2: whenever `Unsubscribe` returns an error, whatever the session state,
the headers and the answers of the two collaborators, the connection after
the call is the connection before it (same ids, same channels, same set of
closed channels) and the call executed no `close`. -/
theorem Unsubscribe_error_leaves_registry (chk : Headers → String → Option Error)
    (tx : String → Headers → Option Error) (c : Connection) (h : Headers) (e : Error)
    (herr : (Unsubscribe chk tx c h).outcome = .returned (some e)) :
    (Unsubscribe chk tx c h).conn = c ∧
    (Unsubscribe chk tx c h).conn.subs = c.subs ∧
    (Unsubscribe chk tx c h).conn.closed = c.closed ∧
    (Unsubscribe chk tx c h).trace.filter Event.isClose = [] := by
  rcases Unsubscribe_cases chk tx c h with ⟨_, hU⟩ | ⟨_, e', _, hU⟩ | ⟨_, _, _, _, hU⟩ |
    ⟨_, _, _, o, hs, hU⟩ | ⟨_, _, _, hs, hU⟩
  · rw [hU]; simp [Event.isClose]
  · rw [hU]; simp [traceChecked, Event.isClose]
  · rw [hU]; simp [traceChecked, Event.isClose]
  · rw [hU]; simp [traceProbed, Event.isClose]
  · rcases finish_cases tx c h (Headers.Contains h "id").1 (Headers.Contains h "id").2
      (traceProbed c h) with ⟨e', _, hF⟩ | ⟨_, _, hF⟩ | ⟨_, _, n, _, _, hF⟩ | ⟨_, _, msg, _, hF⟩
    · rw [hU, hF]; simp [traceProbed, Event.isClose]
    · rw [hU, hF] at herr; simp at herr
    · rw [hU, hF] at herr; simp at herr
    · rw [hU, hF] at herr; simp at herr

/-- C2 on a transmit failure: a 1.2 session, a registered id, a transmitter
that fails. -/
theorem Unsubscribe_error_leaves_registry_witness :
    (Unsubscribe checkOk sendBad conn12 hdrBoth).outcome =
      .returned (some (.other "write failed")) ∧
    (Unsubscribe checkOk sendBad conn12 hdrBoth).conn = conn12 :=
  ⟨by decide,
    (Unsubscribe_error_leaves_registry checkOk sendBad conn12 hdrBoth (.other "write failed")
      (by decide)).1⟩

/-- C3: on a session that is not connected, whatever its protocol level (1.0,
1.1, 1.2 or any other), its registry, the headers and the collaborators,
`Unsubscribe` returns ECONBAD, leaves the connection as it was, and emits
the start log event only: `checkHeaders` is not consulted and the transmitter
is not invoked. -/
theorem Unsubscribe_not_connected (chk : Headers → String → Option Error)
    (tx : String → Headers → Option Error) (c : Connection) (h : Headers)
    (hc : c.connected = false) :
    Unsubscribe chk tx c h = ⟨.returned (some .ECONBAD), c, [.log UNSUBSCRIBE "start" h]⟩ ∧
    (Unsubscribe chk tx c h).trace.filter Event.isCheckHeaders = [] ∧
    (Unsubscribe chk tx c h).trace.filter Event.isTransmit = [] := by
  have hU : Unsubscribe chk tx c h =
      ⟨.returned (some .ECONBAD), c, [.log UNSUBSCRIBE "start" h]⟩ := by
    unfold Unsubscribe
    simp [hc]
  rw [hU]
  simp [Event.isCheckHeaders, Event.isTransmit]

/-- C3 on a disconnected 1.2 session, even with collaborators that would fail. -/
theorem Unsubscribe_not_connected_witness :
    connDown.connected = false ∧
    Unsubscribe checkBad sendBad connDown hdrBoth =
      ⟨.returned (some .ECONBAD), connDown, [.log UNSUBSCRIBE "start" hdrBoth]⟩ :=
  ⟨rfl, (Unsubscribe_not_connected checkBad sendBad connDown hdrBoth rfl).1⟩

/-- C4, the claim as stated fails: under 1.1, connected, headers accepted by
`checkHeaders`, a header set with neither `id` nor `destination` gets
EREQDIUNS, not EUNOSID. -/
theorem Unsubscribe_missing_id_counterexample :
    conn11.connected = true ∧ conn11.protocol = SPL_11 ∧
    checkOk hdrNeither conn11.protocol = none ∧ (Headers.Contains hdrNeither "id").2 = false ∧
    (Unsubscribe checkOk sendOk conn11 hdrNeither).outcome = .returned (some .EREQDIUNS) ∧
    (Unsubscribe checkOk sendOk conn11 hdrNeither).outcome ≠ .returned (some .EUNOSID) := by
  decide

/-- C4 as amended: under 1.1 or 1.2, on a connected session whose headers pass
`checkHeaders`, a header set with no `id` key gets EUNOSID when it has a
`destination` key and EREQDIUNS when it has none; either way the connection
is as it was and the transmitter was not invoked. -/
theorem Unsubscribe_missing_id_11_12 (chk : Headers → String → Option Error)
    (tx : String → Headers → Option Error) (c : Connection) (h : Headers)
    (hv : c.protocol = SPL_11 ∨ c.protocol = SPL_12) (hc : c.connected = true)
    (hk : chk h c.protocol = none) (hi : (Headers.Contains h "id").2 = false) :
    ((Headers.Contains h "destination").2 = true →
      Unsubscribe chk tx c h = ⟨.returned (some .EUNOSID), c, traceProbed c h⟩) ∧
    ((Headers.Contains h "destination").2 = false →
      Unsubscribe chk tx c h = ⟨.returned (some .EREQDIUNS), c, traceChecked c h⟩) ∧
    (Unsubscribe chk tx c h).trace.filter Event.isTransmit = [] := by
  have h1 : (Headers.Contains h "destination").2 = true →
      Unsubscribe chk tx c h = ⟨.returned (some .EUNOSID), c, traceProbed c h⟩ := by
    intro hd
    rw [Unsubscribe_past_checks hc hk (Or.inl hd)]
    unfold Unsubscribe.switch
    rcases hv with hv | hv <;> simp [hv, hi, SPL_11, SPL_12]
  have h2 : (Headers.Contains h "destination").2 = false →
      Unsubscribe chk tx c h = ⟨.returned (some .EREQDIUNS), c, traceChecked c h⟩ := by
    intro hd
    unfold Unsubscribe traceChecked
    simp [hc, hk, hd, hi]
  refine ⟨h1, h2, ?_⟩
  cases hd : (Headers.Contains h "destination").2
  · rw [h2 hd]; simp [traceChecked, Event.isTransmit]
  · rw [h1 hd]; simp [traceProbed, Event.isTransmit]

/-- C4 as amended, at version 1.1 with headers `destination: /queue/a`. -/
theorem Unsubscribe_missing_id_11_12_witness :
    (conn11.protocol = SPL_11 ∨ conn11.protocol = SPL_12) ∧ conn11.connected = true ∧
    checkOk hdrDest conn11.protocol = none ∧ (Headers.Contains hdrDest "id").2 = false ∧
    (Headers.Contains hdrDest "destination").2 = true ∧
    Unsubscribe checkOk sendOk conn11 hdrDest =
      ⟨.returned (some .EUNOSID), conn11, traceProbed conn11 hdrDest⟩ :=
  ⟨Or.inl rfl, rfl, rfl, by decide, by decide,
    (Unsubscribe_missing_id_11_12 checkOk sendOk conn11 hdrDest (Or.inl rfl) rfl rfl
      (by decide)).1 (by decide)⟩

/-- C5, the claim as stated fails: under 1.0, connected, headers accepted by
`checkHeaders`, a header set with an unregistered `id` and no `destination`
gets EUNOSID, not EBADSID. -/
theorem Unsubscribe_unknown_id_10_counterexample :
    conn10.connected = true ∧ conn10.protocol = SPL_10 ∧
    checkOk hdrUnknownId conn10.protocol = none ∧
    Headers.Contains hdrUnknownId "id" = ("nope", true) ∧ "nope" ∉ conn10.subs ∧
    (Unsubscribe checkOk sendOk conn10 hdrUnknownId).outcome = .returned (some .EUNOSID) ∧
    (Unsubscribe checkOk sendOk conn10 hdrUnknownId).outcome ≠ .returned (some .EBADSID) := by
  decide

/-- C5 as amended: under 1.0, on a connected session whose headers pass
`checkHeaders`, a header set with a `destination` key and an `id` key whose
value is not a key of the registry gets EBADSID; without a `destination` key
the call is rejected as well, by the destination test that the 1.0 case
makes first, with an error that is not EBADSID; either way the connection is
as it was and the transmitter was not invoked. -/
theorem Unsubscribe_unknown_id_10 (chk : Headers → String → Option Error)
    (tx : String → Headers → Option Error) (c : Connection) (h : Headers) (sid : String)
    (hv : c.protocol = SPL_10) (hc : c.connected = true) (hk : chk h c.protocol = none)
    (hid : Headers.Contains h "id" = (sid, true)) (hsid : sid ∉ c.subs) :
    ((Headers.Contains h "destination").2 = true →
      Unsubscribe chk tx c h = ⟨.returned (some .EBADSID), c, traceProbed c h⟩) ∧
    ((Headers.Contains h "destination").2 = false →
      ∃ e, e ≠ .EBADSID ∧
        Unsubscribe chk tx c h = ⟨.returned (some e), c, traceProbed c h⟩) ∧
    (Unsubscribe chk tx c h).conn = c ∧
    (Unsubscribe chk tx c h).trace.filter Event.isTransmit = [] := by
  have hi2 : (Headers.Contains h "id").2 = true := by rw [hid]
  have hp : c.hasSub (Headers.Contains h "id").1 = false := by
    rw [hid]
    unfold Connection.hasSub
    rw [AList.lookup_eq_none.2 hsid]
    rfl
  have h1 : (Headers.Contains h "destination").2 = true →
      Unsubscribe chk tx c h = ⟨.returned (some .EBADSID), c, traceProbed c h⟩ := by
    intro hd
    rw [Unsubscribe_past_checks hc hk (Or.inr hi2), hi2, hp, hv, hd,
      switch_unknown_id (Or.inl rfl) (fun _ => rfl)]
  have h2 : (Headers.Contains h "destination").2 = false →
      Unsubscribe chk tx c h = ⟨.returned (some .EUNOSID), c, traceProbed c h⟩ := by
    intro hd
    rw [Unsubscribe_past_checks hc hk (Or.inr hi2), hi2, hp, hv, hd]
    simp [Unsubscribe.switch, SPL_10, SPL_11, SPL_12]
  refine ⟨h1, fun hd => ⟨.EUNOSID, by decide, h2 hd⟩, ?_⟩
  cases hd : (Headers.Contains h "destination").2
  · rw [h2 hd]; simp [traceProbed, Event.isTransmit]
  · rw [h1 hd]; simp [traceProbed, Event.isTransmit]

/-- C5 as amended, at version 1.0 with headers
`destination: /queue/a, id: nope`. -/
theorem Unsubscribe_unknown_id_10_witness :
    conn10.protocol = SPL_10 ∧ conn10.connected = true ∧
    Headers.Contains hdrDestUnknownId "id" = ("nope", true) ∧ "nope" ∉ conn10.subs ∧
    Unsubscribe checkOk sendOk conn10 hdrDestUnknownId =
      ⟨.returned (some .EBADSID), conn10, traceProbed conn10 hdrDestUnknownId⟩ :=
  ⟨rfl, rfl, by decide, by decide,
    (Unsubscribe_unknown_id_10 checkOk sendOk conn10 hdrDestUnknownId "nope" rfl rfl rfl
      (by decide) (by decide)).1 (by decide)⟩

/-- C6: under 1.0, on a connected session, for headers with a `destination`
key and no `id` key that pass `checkHeaders`, and a transmitter that
succeeds: `Unsubscribe` returns success, the transmitter was invoked exactly
once, with UNSUBSCRIBE and the caller's headers, the connection (registry and
closed channels) is as it was, and the outcome and the trace are the same
over every other registry content. -/
theorem Unsubscribe_10_destination_only (chk : Headers → String → Option Error)
    (tx : String → Headers → Option Error) (c : Connection) (h : Headers)
    (hv : c.protocol = SPL_10) (hc : c.connected = true) (hk : chk h c.protocol = none)
    (hd : (Headers.Contains h "destination").2 = true)
    (hi : (Headers.Contains h "id").2 = false) (ht : tx UNSUBSCRIBE h = none) :
    Unsubscribe chk tx c h =
      ⟨.returned none, c,
        traceProbed c h ++ [.transmit UNSUBSCRIBE h, .log UNSUBSCRIBE "end" h]⟩ ∧
    (Unsubscribe chk tx c h).trace.filter Event.isTransmit = [.transmit UNSUBSCRIBE h] ∧
    (∀ (subs' : Subs) (closed' : List Nat),
      (Unsubscribe chk tx { c with subs := subs', closed := closed' } h).outcome =
          (Unsubscribe chk tx c h).outcome ∧
        (Unsubscribe chk tx { c with subs := subs', closed := closed' } h).trace =
          (Unsubscribe chk tx c h).trace ∧
        (Unsubscribe chk tx { c with subs := subs', closed := closed' } h).conn =
          { c with subs := subs', closed := closed' }) := by
  have key : ∀ c' : Connection, c'.protocol = SPL_10 → c'.connected = true →
      chk h c'.protocol = none →
      Unsubscribe chk tx c' h =
        ⟨.returned none, c',
          traceProbed c' h ++ [.transmit UNSUBSCRIBE h, .log UNSUBSCRIBE "end" h]⟩ := by
    intro c' hv' hc' hk'
    rw [Unsubscribe_past_checks hc' hk' (Or.inl hd), hd, hi, hv']
    simp [Unsubscribe.switch, Unsubscribe.finish, ht, SPL_10, SPL_11, SPL_12]
  refine ⟨key c hv hc hk, ?_, ?_⟩
  · rw [key c hv hc hk]
    simp [traceProbed, Event.isTransmit]
  · intro subs' closed'
    rw [key c hv hc hk, key { c with subs := subs', closed := closed' } hv hc hk]
    simp [traceProbed]

/-- C6 at version 1.0, headers `destination: /queue/a`, empty registry. -/
theorem Unsubscribe_10_destination_only_witness :
    conn10empty.protocol = SPL_10 ∧ conn10empty.subs = ∅ ∧
    (Headers.Contains hdrDest "destination").2 = true ∧
    (Headers.Contains hdrDest "id").2 = false ∧
    Unsubscribe checkOk sendOk conn10empty hdrDest =
      ⟨.returned none, conn10empty,
        traceProbed conn10empty hdrDest ++
          [.transmit UNSUBSCRIBE hdrDest, .log UNSUBSCRIBE "end" hdrDest]⟩ :=
  ⟨rfl, rfl, by decide, by decide,
    (Unsubscribe_10_destination_only checkOk sendOk conn10empty hdrDest rfl rfl rfl
      (by decide) (by decide) rfl).1⟩

/-- C7: for headers `h` that contain an `id`, if `Unsubscribe h` returns
success, then a second `Unsubscribe h` on the resulting connection, with a
`checkHeaders` that still accepts `h` and any transmitter, returns EBADSID
(it returns, it does not panic), does not invoke the transmitter, and leaves
the connection as the first call left it.  (Success of the first call forces
a supported protocol level and a connected session.) -/
theorem Unsubscribe_twice_rejected (chk chk2 : Headers → String → Option Error)
    (tx tx2 : String → Headers → Option Error) (c : Connection) (h : Headers)
    (hi : (Headers.Contains h "id").2 = true)
    (hok : (Unsubscribe chk tx c h).outcome = .returned none)
    (hk2 : chk2 h c.protocol = none) :
    (Unsubscribe chk2 tx2 (Unsubscribe chk tx c h).conn h).outcome =
      .returned (some .EBADSID) ∧
    (Unsubscribe chk2 tx2 (Unsubscribe chk tx c h).conn h).conn =
      (Unsubscribe chk tx c h).conn ∧
    (Unsubscribe chk2 tx2 (Unsubscribe chk tx c h).conn h).trace.filter Event.isTransmit = [] ∧
    (Unsubscribe chk2 tx2 (Unsubscribe chk tx c h).conn h).trace.filter Event.isClose = [] := by
  rcases Unsubscribe_cases chk tx c h with ⟨_, hU⟩ | ⟨_, e, _, hU⟩ | ⟨_, _, _, _, hU⟩ |
    ⟨_, _, _, o, hs, hU⟩ | ⟨hc, _, _, hs, hU⟩
  · rw [hU] at hok; simp at hok
  · rw [hU] at hok; simp at hok
  · rw [hU] at hok; simp at hok
  · rw [hU] at hok
    simp only at hok
    subst hok
    unfold Unsubscribe.switch at hs
    split_ifs at hs <;> simp_all
  · obtain ⟨hv, _, hd, _⟩ := switch_eq_none hs
    rw [hi] at hU
    rcases finish_cases tx c h (Headers.Contains h "id").1 true (traceProbed c h) with
      ⟨e, _, hF⟩ | ⟨_, hf, _⟩ | ⟨_, _, n, hl, hn, hF⟩ | ⟨_, _, msg, _, hF⟩
    · rw [hU, hF] at hok; simp at hok
    · simp at hf
    · rw [hU, hF]
      simp only
      have hp : Connection.hasSub
          { c with subs := c.subs.erase (Headers.Contains h "id").1, closed := n :: c.closed }
          (Headers.Contains h "id").1 = false := by
        simp [Connection.hasSub, AList.lookup_erase]
      have key := @Unsubscribe_past_checks chk2 tx2
        { c with subs := c.subs.erase (Headers.Contains h "id").1, closed := n :: c.closed }
        h hc hk2 (Or.inr hi)
      rw [hi, hp] at key
      simp only at key
      rw [switch_unknown_id hv hd] at key
      rw [key]
      simp [traceProbed, Event.isTransmit, Event.isClose]
    · rw [hU, hF] at hok; simp at hok

/-- C7 at version 1.2 with a registered id: the first call succeeds, the
second gets EBADSID. -/
theorem Unsubscribe_twice_rejected_witness :
    (Headers.Contains hdrBoth "id").2 = true ∧
    (Unsubscribe checkOk sendOk conn12 hdrBoth).outcome = .returned none ∧
    (Unsubscribe checkOk sendOk (Unsubscribe checkOk sendOk conn12 hdrBoth).conn hdrBoth).outcome =
      .returned (some .EBADSID) :=
  ⟨by decide, by decide,
    (Unsubscribe_twice_rejected checkOk checkOk sendOk sendOk conn12 hdrBoth (by decide)
      (by decide) rfl).1⟩

/-- C8, the claim as stated fails, for it takes every registry: with `sub-1`
registered on a channel that is already closed, `UnsubscribeAuto` panics on
the second `close` and removes nothing; and with `sub-1` and `sub-2`
registered on one channel, `UnsubscribeAuto` of `sub-1` succeeds and leaves
the channel of the other entry closed. -/
theorem UnsubscribeAuto_registered_counterexample :
    "sub-1" ∈ connClosed.subs ∧
    (UnsubscribeAuto connClosed "sub-1").outcome = .panicked "close of closed channel" ∧
    (UnsubscribeAuto connClosed "sub-1").outcome ≠ .returned none ∧
    "sub-1" ∈ (UnsubscribeAuto connClosed "sub-1").conn.subs ∧
    (UnsubscribeAuto connClosed "sub-1").conn.size = connClosed.size ∧
    "sub-1" ∈ connShared.subs ∧
    (UnsubscribeAuto connShared "sub-1").outcome = .returned none ∧
    connShared.subs.lookup "sub-2" = some (some 0) ∧
    connShared.chanOpen (some 0) = true ∧
    (UnsubscribeAuto connShared "sub-1").conn.subs.lookup "sub-2" = some (some 0) ∧
    (UnsubscribeAuto connShared "sub-1").conn.chanOpen (some 0) = false := by
  decide

/-- C8 as amended: on a registry in which every registered channel is open
and no channel is registered under two ids, for an id that
is a key of the registry, `UnsubscribeAuto` returns success; the registry
afterwards is the original one with the entry of `id` erased, so its size is
smaller by exactly one; the channel that was registered under `id` is the one
channel the call closed; every other entry is unchanged and its channel is
still open. -/
theorem UnsubscribeAuto_registered (c : Connection) (id : String)
    (hinv : c.RegistryInv) (hid : id ∈ c.subs) :
    (UnsubscribeAuto c id).outcome = .returned none ∧
    (UnsubscribeAuto c id).conn.subs = c.subs.erase id ∧
    id ∉ (UnsubscribeAuto c id).conn.subs ∧
    (UnsubscribeAuto c id).conn.size + 1 = c.size ∧
    (∃ n, c.subs.lookup id = some (some n) ∧ n ∉ c.closed ∧
      (UnsubscribeAuto c id).conn.closed = n :: c.closed ∧
      (UnsubscribeAuto c id).trace.filter Event.isClose = [.close (some n)]) ∧
    (∀ k ch, k ≠ id → c.subs.lookup k = some ch →
      (UnsubscribeAuto c id).conn.subs.lookup k = some ch ∧
        (UnsubscribeAuto c id).conn.chanOpen ch = true) := by
  obtain ⟨ch, hl⟩ := Option.isSome_iff_exists.1 (AList.lookup_isSome.2 hid)
  have hopen := hinv.1 ch (mem_chans_of_lookup hl)
  cases ch with
  | none => simp [Connection.chanOpen] at hopen
  | some n =>
    have hn : n ∉ c.closed := by simpa [Connection.chanOpen] using hopen
    have hU : UnsubscribeAuto c id =
        ⟨.returned none, { c with subs := c.subs.erase id, closed := n :: c.closed },
          [.lock, .unlock, .lock, .close (some n), .unlock]⟩ := by
      unfold UnsubscribeAuto deleteSubscription Connection.subsAt Connection.hasSub
      simp [hl, chanClose, hn]
    rw [hU]
    refine ⟨rfl, rfl, ?_, ?_, ⟨n, hl, hn, rfl, ?_⟩, ?_⟩
    · simp [AList.mem_erase]
    · exact length_erase_of_mem hid
    · simp [Event.isClose]
    · intro k ch' hne hk
      refine ⟨?_, others_open_after_delete hinv hl hne hk _ rfl⟩
      simp only
      rw [AList.lookup_erase_ne hne, hk]

/-- C8 as amended, on the registry holding `sub-1` and `sub-2`, for `sub-1`. -/
theorem UnsubscribeAuto_registered_witness :
    conn12.RegistryInv ∧ "sub-1" ∈ conn12.subs ∧
    (UnsubscribeAuto conn12 "sub-1").outcome = .returned none ∧
    (UnsubscribeAuto conn12 "sub-1").conn.size + 1 = conn12.size :=
  have w := UnsubscribeAuto_registered conn12 "sub-1" (by decide) (by decide)
  ⟨by decide, by decide, w.1, w.2.2.2.1⟩

/-- C9: for an id that is not a key of the registry, `UnsubscribeAuto`
returns EBADSID and leaves the connection as it was: same entries, same size,
same set of closed channels, and no `close` executed. -/
theorem UnsubscribeAuto_unknown (c : Connection) (id : String) (hid : id ∉ c.subs) :
    UnsubscribeAuto c id = ⟨.returned (some .EBADSID), c, [.lock, .unlock]⟩ ∧
    (UnsubscribeAuto c id).conn.size = c.size ∧
    (UnsubscribeAuto c id).conn.closed = c.closed ∧
    (UnsubscribeAuto c id).trace.filter Event.isClose = [] := by
  have hU : UnsubscribeAuto c id = ⟨.returned (some .EBADSID), c, [.lock, .unlock]⟩ := by
    unfold UnsubscribeAuto Connection.hasSub
    simp [AList.lookup_eq_none.2 hid]
  rw [hU]
  simp [Event.isClose]

/-- C9 on the registry holding `sub-1` and `sub-2`, for the id `nope`. -/
theorem UnsubscribeAuto_unknown_witness :
    "nope" ∉ conn12.subs ∧
    UnsubscribeAuto conn12 "nope" = ⟨.returned (some .EBADSID), conn12, [.lock, .unlock]⟩ :=
  ⟨by decide, (UnsubscribeAuto_unknown conn12 "nope" (by decide)).1⟩

/-- C10, the code at the failing input: under 1.1 and under 1.2, on a
connected session, headers `id: sub-1` with no `destination` key, for a
registered `sub-1`, make `Unsubscribe` return success and tear the
subscription down; under 1.0 the same headers are rejected. -/
theorem Unsubscribe_without_destination_succeeds :
    (Headers.Contains hdrId "destination").2 = false ∧
    (Unsubscribe checkOk sendOk conn11 hdrId).outcome = .returned none ∧
    (Unsubscribe checkOk sendOk conn12 hdrId).outcome = .returned none ∧
    "sub-1" ∉ (Unsubscribe checkOk sendOk conn11 hdrId).conn.subs ∧
    (Unsubscribe checkOk sendOk conn10 hdrId).outcome = .returned (some .EUNOSID) := by
  decide

/-- C11: when `Unsubscribe` reaches the version switch (session connected,
headers accepted by `checkHeaders`, a `destination` or an `id` present) and
the protocol level is none of 1.0, 1.1, 1.2, the call panics: it does not
return an error value or success, the transmitter is not invoked, and the
connection (registry and closed channels) is as it was. -/
theorem Unsubscribe_unsupported_version_panics (chk : Headers → String → Option Error)
    (tx : String → Headers → Option Error) (c : Connection) (h : Headers)
    (hc : c.connected = true) (hk : chk h c.protocol = none)
    (hdi : (Headers.Contains h "destination").2 = true ∨ (Headers.Contains h "id").2 = true)
    (h10 : c.protocol ≠ SPL_10) (h11 : c.protocol ≠ SPL_11) (h12 : c.protocol ≠ SPL_12) :
    Unsubscribe chk tx c h =
      ⟨.panicked "unsubscribe version not supported", c, traceProbed c h⟩ ∧
    (∀ e, (Unsubscribe chk tx c h).outcome ≠ .returned e) ∧
    (Unsubscribe chk tx c h).trace.filter Event.isTransmit = [] ∧
    (Unsubscribe chk tx c h).conn.subs = c.subs ∧
    (Unsubscribe chk tx c h).conn.closed = c.closed := by
  have hU : Unsubscribe chk tx c h =
      ⟨.panicked "unsubscribe version not supported", c, traceProbed c h⟩ := by
    rw [Unsubscribe_past_checks hc hk hdi]
    simp [Unsubscribe.switch, h10, h11, h12]
  rw [hU]
  simp [traceProbed, Event.isTransmit]

/-- C11 at protocol level "2.0" with a transmitter that would succeed. -/
theorem Unsubscribe_unsupported_version_panics_witness :
    conn20.connected = true ∧ conn20.protocol ≠ SPL_10 ∧ conn20.protocol ≠ SPL_11 ∧
    conn20.protocol ≠ SPL_12 ∧
    Unsubscribe checkOk sendOk conn20 hdrBoth =
      ⟨.panicked "unsubscribe version not supported", conn20, traceProbed conn20 hdrBoth⟩ :=
  ⟨rfl, by decide, by decide, by decide,
    (Unsubscribe_unsupported_version_panics checkOk sendOk conn20 hdrBoth rfl rfl
      (Or.inl (by decide)) (by decide) (by decide) (by decide)).1⟩

/-- C14: for every header set, registry, set of closed channels, connected
flag and transmitter, if `checkHeaders` answers the same for `h` under 1.1
and under 1.2, then `Unsubscribe` on a 1.1 session and on the same session
at 1.2 end the same way (same return value or same panic), make the same
transmitter invocations, execute the same `close`s, and leave the same
registry and the same closed channels. -/
theorem Unsubscribe_11_12_agree (chk : Headers → String → Option Error)
    (tx : String → Headers → Option Error) (c : Connection) (h : Headers)
    (hk : chk h SPL_11 = chk h SPL_12) :
    (Unsubscribe chk tx { c with protocol := SPL_11 } h).outcome =
      (Unsubscribe chk tx { c with protocol := SPL_12 } h).outcome ∧
    (Unsubscribe chk tx { c with protocol := SPL_11 } h).trace.filter Event.isTransmit =
      (Unsubscribe chk tx { c with protocol := SPL_12 } h).trace.filter Event.isTransmit ∧
    (Unsubscribe chk tx { c with protocol := SPL_11 } h).trace.filter Event.isClose =
      (Unsubscribe chk tx { c with protocol := SPL_12 } h).trace.filter Event.isClose ∧
    (Unsubscribe chk tx { c with protocol := SPL_11 } h).conn.subs =
      (Unsubscribe chk tx { c with protocol := SPL_12 } h).conn.subs ∧
    (Unsubscribe chk tx { c with protocol := SPL_11 } h).conn.closed =
      (Unsubscribe chk tx { c with protocol := SPL_12 } h).conn.closed := by
  have hsw : ∀ okd oki p, Unsubscribe.switch SPL_11 okd oki p =
      Unsubscribe.switch SPL_12 okd oki p := by
    intro okd oki p
    simp [Unsubscribe.switch, SPL_11, SPL_12]
  obtain ⟨b, v, subs, cl⟩ := c
  cases b with
  | false =>
    rw [Unsubscribe_not_connected_aux chk tx ⟨false, SPL_11, subs, cl⟩ h rfl,
      Unsubscribe_not_connected_aux chk tx ⟨false, SPL_12, subs, cl⟩ h rfl]
    simp
  | true =>
    cases hk2 : chk h SPL_12 with
    | some e =>
      have hk1 : chk h SPL_11 = some e := by rw [hk, hk2]
      unfold Unsubscribe
      simp [hk1, hk2, Event.isTransmit, Event.isClose]
    | none =>
      have hk1 : chk h SPL_11 = none := by rw [hk, hk2]
      by_cases hdi : (Headers.Contains h "destination").2 = true ∨
          (Headers.Contains h "id").2 = true
      · rw [@Unsubscribe_past_checks chk tx ⟨true, SPL_11, subs, cl⟩ h rfl hk1 hdi,
          @Unsubscribe_past_checks chk tx ⟨true, SPL_12, subs, cl⟩ h rfl hk2 hdi]
        simp only [Connection.hasSub, hsw]
        cases Unsubscribe.switch SPL_12 (Headers.Contains h "destination").2
            (Headers.Contains h "id").2
            (AList.lookup (Headers.Contains h "id").1 subs).isSome with
        | some o => simp [traceProbed, Event.isTransmit, Event.isClose]
        | none =>
          exact @finish_congr tx ⟨true, SPL_11, subs, cl⟩ ⟨true, SPL_12, subs, cl⟩ rfl rfl h
            (Headers.Contains h "id").1 (Headers.Contains h "id").2
            (traceProbed ⟨true, SPL_11, subs, cl⟩ h) (traceProbed ⟨true, SPL_12, subs, cl⟩ h)
            (by simp [traceProbed, Event.isTransmit]) (by simp [traceProbed, Event.isClose])
      · have hd : (Headers.Contains h "destination").2 = false := by
          cases hd : (Headers.Contains h "destination").2 <;> simp_all
        have hi : (Headers.Contains h "id").2 = false := by
          cases hi : (Headers.Contains h "id").2 <;> simp_all
        unfold Unsubscribe
        simp [hk1, hk2, hd, hi, Event.isTransmit, Event.isClose]

/-- C14 on a registered id: both levels succeed and erase `sub-1`. -/
theorem Unsubscribe_11_12_agree_witness :
    checkOk hdrBoth SPL_11 = checkOk hdrBoth SPL_12 ∧
    (Unsubscribe checkOk sendOk conn11 hdrBoth).outcome =
      (Unsubscribe checkOk sendOk conn12 hdrBoth).outcome ∧
    (Unsubscribe checkOk sendOk conn11 hdrBoth).conn.subs =
      (Unsubscribe checkOk sendOk conn12 hdrBoth).conn.subs :=
  have w := Unsubscribe_11_12_agree checkOk sendOk conn12 hdrBoth rfl
  ⟨rfl, w.1, w.2.2.2.1⟩

/-- C18: `UnsubscribeAuto` is a function of the id and of the registry (the
map and the state of its channels) only: on two sessions with equal
registries, whatever their connected flags and protocol levels, it ends the
same way, emits the same events and leaves the same registry; and its trace
has no `checkHeaders` event and no transmitter event. -/
theorem UnsubscribeAuto_registry_only (c1 c2 : Connection) (id : String)
    (hs : c1.subs = c2.subs) (hcl : c1.closed = c2.closed) :
    (UnsubscribeAuto c1 id).outcome = (UnsubscribeAuto c2 id).outcome ∧
    (UnsubscribeAuto c1 id).conn.subs = (UnsubscribeAuto c2 id).conn.subs ∧
    (UnsubscribeAuto c1 id).conn.closed = (UnsubscribeAuto c2 id).conn.closed ∧
    (UnsubscribeAuto c1 id).trace = (UnsubscribeAuto c2 id).trace ∧
    (UnsubscribeAuto c1 id).trace.filter Event.isCheckHeaders = [] ∧
    (UnsubscribeAuto c1 id).trace.filter Event.isTransmit = [] := by
  obtain ⟨b1, v1, s1, cl1⟩ := c1
  obtain ⟨b2, v2, s2, cl2⟩ := c2
  simp only at hs hcl
  subst hs hcl
  simp only [UnsubscribeAuto, deleteSubscription, Connection.hasSub, Connection.subsAt]
  cases hl : AList.lookup id s1 with
  | none => simp [Event.isCheckHeaders, Event.isTransmit]
  | some ch =>
    cases hcc : chanClose cl1 ch <;>
      simp [hcc, Event.isCheckHeaders, Event.isTransmit]

/-- C18 on a connected 1.2 session and a disconnected session at the
unsupported level "2.0", over the same registry. -/
theorem UnsubscribeAuto_registry_only_witness :
    conn12.subs = connDown20.subs ∧ conn12.connected ≠ connDown20.connected ∧
    conn12.protocol ≠ connDown20.protocol ∧
    (UnsubscribeAuto conn12 "sub-1").outcome = (UnsubscribeAuto connDown20 "sub-1").outcome ∧
    (UnsubscribeAuto conn12 "sub-1").conn.subs = (UnsubscribeAuto connDown20 "sub-1").conn.subs :=
  have w := UnsubscribeAuto_registry_only conn12 connDown20 "sub-1" rfl rfl
  ⟨rfl, by decide, by decide, w.1, w.2.1⟩

/-- C15, the code at the failing input: `deleteSubscription` on an id that is
not a key of the registry is not a no-op.  It panics with "close of nil
channel" after taking the lock and before releasing it; so does the second
teardown of `sub-1` when `UnsubscribeAuto` has already removed it. -/
theorem deleteSubscription_absent_id_panics :
    "nope" ∉ conn12.subs ∧
    deleteSubscription conn12 "nope" =
      ⟨.panicked "close of nil channel", conn12, [.lock, .close none]⟩ ∧
    lockScan false (deleteSubscription conn12 "nope").trace = some true ∧
    (UnsubscribeAuto conn12 "sub-1").outcome = .returned none ∧
    (deleteSubscription (UnsubscribeAuto conn12 "sub-1").conn "sub-1").outcome =
      .panicked "close of nil channel" :=
  ⟨by decide, deleteSubscription_absent conn12 "nope" (by decide), by decide, by decide,
    by decide⟩

/-- C19: every invocation of `deleteSubscription` emits a `close` event on
the channel it reads from the map; in a run of `Unsubscribe` such an event
occurs only when the `id` header is present and its value is a key of the
registry (under each of 1.0, 1.1, 1.2, the only levels that get that far),
and in a run of `UnsubscribeAuto` only when the id is a key of the registry;
the channel closed is the one registered under that key.  Hence the nil
channel read for a missing key is never closed: on a registry that holds no
nil channel, no run emits `close` of nil. -/
theorem deleteSubscription_only_on_registered (chk : Headers → String → Option Error)
    (tx : String → Headers → Option Error) (c : Connection) (h : Headers) (id : String) :
    (∀ (c' : Connection) (k : String),
      Event.close (c'.subsAt k) ∈ (deleteSubscription c' k).trace) ∧
    (∀ ch, Event.close ch ∈ (Unsubscribe chk tx c h).trace →
      (Headers.Contains h "id").2 = true ∧ (Headers.Contains h "id").1 ∈ c.subs ∧
      c.subs.lookup (Headers.Contains h "id").1 = some ch ∧
      (c.protocol = SPL_10 ∨ c.protocol = SPL_11 ∨ c.protocol = SPL_12)) ∧
    (∀ ch, Event.close ch ∈ (UnsubscribeAuto c id).trace →
      id ∈ c.subs ∧ c.subs.lookup id = some ch) ∧
    ((∀ k, c.subs.lookup k ≠ some none) →
      Event.close none ∉ (Unsubscribe chk tx c h).trace ∧
      Event.close none ∉ (UnsubscribeAuto c id).trace) := by
  have hU : ∀ ch, Event.close ch ∈ (Unsubscribe chk tx c h).trace →
      (Headers.Contains h "id").2 = true ∧ (Headers.Contains h "id").1 ∈ c.subs ∧
      c.subs.lookup (Headers.Contains h "id").1 = some ch ∧
      (c.protocol = SPL_10 ∨ c.protocol = SPL_11 ∨ c.protocol = SPL_12) := by
    intro ch hch
    rcases Unsubscribe_cases chk tx c h with ⟨_, hr⟩ | ⟨_, e, _, hr⟩ | ⟨_, _, _, _, hr⟩ |
      ⟨_, _, _, o, hs, hr⟩ | ⟨_, _, _, hs, hr⟩
    · rw [hr] at hch; simp at hch
    · rw [hr] at hch; simp [traceChecked] at hch
    · rw [hr] at hch; simp [traceChecked] at hch
    · rw [hr] at hch; simp [traceProbed] at hch
    · obtain ⟨hv, hp, _, _⟩ := switch_eq_none hs
      rw [hr] at hch
      rcases finish_cases tx c h (Headers.Contains h "id").1 (Headers.Contains h "id").2
        (traceProbed c h) with ⟨e, _, hF⟩ | ⟨_, _, hF⟩ | ⟨_, hi, n, hl, _, hF⟩ |
        ⟨_, hi, msg, _, hF⟩
      · rw [hF] at hch; simp [traceProbed] at hch
      · rw [hF] at hch; simp [traceProbed] at hch
      · rw [hF] at hch
        have hpm := lookup_of_hasSub (hp hi)
        have : ch = some n := by simpa [traceProbed] using hch
        exact ⟨hi, hpm.1, by rw [this, hl], hv⟩
      · rw [hF] at hch
        have hpm := lookup_of_hasSub (hp hi)
        have hmem : Event.close ch ∈
            (deleteSubscription c (Headers.Contains h "id").1).trace := by
          simpa [traceProbed] using hch
        rw [close_mem_deleteSubscription hmem]
        exact ⟨hi, hpm.1, hpm.2, hv⟩
  have hA : ∀ ch, Event.close ch ∈ (UnsubscribeAuto c id).trace →
      id ∈ c.subs ∧ c.subs.lookup id = some ch := by
    intro ch hch
    rcases UnsubscribeAuto_cases c id with ⟨_, hr⟩ | ⟨hid, msg, hr⟩ | ⟨hid, n, hl, _, hr⟩
    · rw [hr] at hch; simp at hch
    · rw [hr] at hch
      have : ch = c.subsAt id := by simpa using hch
      obtain ⟨x, hx⟩ := Option.isSome_iff_exists.1 (AList.lookup_isSome.2 hid)
      rw [this, subsAt_of_lookup hx]
      exact ⟨hid, hx⟩
    · rw [hr] at hch
      have : ch = some n := by simpa using hch
      exact ⟨hid, by rw [this, hl]⟩
  refine ⟨?_, hU, hA, ?_⟩
  · intro c' k
    rcases deleteSubscription_shape c' k with ⟨msg, hd⟩ | ⟨n, hl, _, hd⟩
    · rw [hd]; simp
    · rw [hd, subsAt_of_lookup hl]; simp
  · intro hnil
    exact ⟨fun hm => hnil _ (hU none hm).2.2.1, fun hm => hnil _ (hA none hm).2⟩

/-- C17: replaying the trace of any run of `Unsubscribe` or `UnsubscribeAuto`
against `subsLock`, starting with the lock free, never fails: no
`checkHeaders`, transmitter or logger event occurs while the lock is held
(so each `Lock` is released before the next collaborator call), and no lock
is taken twice or released when free; and when the run returns (success or
an error value) the lock is free at the end. -/
theorem lock_not_held_across_collaborators (chk : Headers → String → Option Error)
    (tx : String → Headers → Option Error) (c : Connection) (h : Headers) (id : String) :
    (∃ held, lockScan false (Unsubscribe chk tx c h).trace = some held ∧
      ∀ e, (Unsubscribe chk tx c h).outcome = .returned e → held = false) ∧
    (∃ held, lockScan false (UnsubscribeAuto c id).trace = some held ∧
      ∀ e, (UnsubscribeAuto c id).outcome = .returned e → held = false) := by
  constructor
  · rcases Unsubscribe_cases chk tx c h with ⟨_, hr⟩ | ⟨_, e, _, hr⟩ | ⟨_, _, _, _, hr⟩ |
      ⟨_, _, _, o, hs, hr⟩ | ⟨_, _, _, hs, hr⟩
    · rw [hr]; exact ⟨false, by simp [lockScan, Event.isCollaborator], fun _ _ => rfl⟩
    · rw [hr]
      exact ⟨false, by simp [traceChecked, lockScan, Event.isCollaborator], fun _ _ => rfl⟩
    · rw [hr]
      exact ⟨false, by simp [traceChecked, lockScan, Event.isCollaborator], fun _ _ => rfl⟩
    · rw [hr]
      exact ⟨false, by simp [traceProbed, lockScan, Event.isCollaborator], fun _ _ => rfl⟩
    · rw [hr]
      rcases finish_cases tx c h (Headers.Contains h "id").1 (Headers.Contains h "id").2
        (traceProbed c h) with ⟨e, _, hF⟩ | ⟨_, _, hF⟩ | ⟨_, _, n, _, _, hF⟩ |
        ⟨_, _, msg, hd, hF⟩
      · rw [hF]
        exact ⟨false, by simp [traceProbed, lockScan, Event.isCollaborator], fun _ _ => rfl⟩
      · rw [hF]
        exact ⟨false, by simp [traceProbed, lockScan, Event.isCollaborator], fun _ _ => rfl⟩
      · rw [hF]
        exact ⟨false, by simp [traceProbed, lockScan, Event.isCollaborator], fun _ _ => rfl⟩
      · rw [hF]
        rcases deleteSubscription_shape c (Headers.Contains h "id").1 with
          ⟨m, hsh⟩ | ⟨n, _, _, hsh⟩
        · rw [hsh]
          exact ⟨true, by simp [traceProbed, lockScan, Event.isCollaborator],
            fun e he => by simp at he⟩
        · rw [hsh] at hd
          simp at hd
  · rcases UnsubscribeAuto_cases c id with ⟨_, hr⟩ | ⟨_, msg, hr⟩ | ⟨_, n, _, _, hr⟩
    · rw [hr]; exact ⟨false, by simp [lockScan], fun _ _ => rfl⟩
    · rw [hr]
      exact ⟨true, by simp [lockScan, Event.isCollaborator], fun e he => by simp at he⟩
    · rw [hr]
      exact ⟨false, by simp [lockScan, Event.isCollaborator], fun _ _ => rfl⟩

/-- C13, the claim as stated fails, for it takes every state: on a connected
1.2 session with `sub-1` registered on a channel that is already closed,
headers `destination: /queue/a, id: sub-1` and collaborators that answer
nil, the reference decision reaches step 8 (success, entry erased), while
`Unsubscribe` transmits and then panics in `deleteSubscription`, the entry
still registered. -/
theorem Unsubscribe_eq_reference_counterexample :
    connClosed.connected = true ∧ checkOk hdrBoth connClosed.protocol = none ∧
    sendOk UNSUBSCRIBE hdrBoth = none ∧
    (UnsubscribeReference checkOk sendOk connClosed hdrBoth).verdict = .success ∧
    "sub-1" ∉ (UnsubscribeReference checkOk sendOk connClosed hdrBoth).subs ∧
    (Unsubscribe checkOk sendOk connClosed hdrBoth).outcome =
      .panicked "close of closed channel" ∧
    (Unsubscribe checkOk sendOk connClosed hdrBoth).outcome.kind ≠
      (UnsubscribeReference checkOk sendOk connClosed hdrBoth).verdict ∧
    "sub-1" ∈ (Unsubscribe checkOk sendOk connClosed hdrBoth).conn.subs ∧
    (Unsubscribe checkOk sendOk connClosed hdrBoth).trace.filter Event.isTransmit =
      [.transmit UNSUBSCRIBE hdrBoth] := by
  decide

/-- C13 as amended: in every state in which the channel registered under the
supplied id, when an id is supplied and registered, is open, `Unsubscribe`
agrees with the reference decision of the eight steps, for every connected
flag, protocol level, header set and answers of the two collaborators: same
kind of ending (the same error value, success, or a panic), same resulting
registry, same invocations of the transmitter (none through steps 1-6,
exactly one from step 7 on). -/
theorem Unsubscribe_eq_reference (chk : Headers → String → Option Error)
    (tx : String → Headers → Option Error) (c : Connection) (h : Headers)
    (hopen : (Headers.Contains h "id").2 = true → c.hasSub (Headers.Contains h "id").1 = true →
      c.chanOpen (c.subsAt (Headers.Contains h "id").1) = true) :
    (Unsubscribe chk tx c h).outcome.kind = (UnsubscribeReference chk tx c h).verdict ∧
    (Unsubscribe chk tx c h).conn.subs = (UnsubscribeReference chk tx c h).subs ∧
    (Unsubscribe chk tx c h).trace.filter Event.isTransmit =
      (UnsubscribeReference chk tx c h).transmits := by
  have hmem : c.hasSub (Headers.Contains h "id").1 = true ↔
      (Headers.Contains h "id").1 ∈ c.subs := AList.lookup_isSome
  rcases Unsubscribe_cases chk tx c h with ⟨hc, hr⟩ | ⟨hc, e, hk, hr⟩ | ⟨hc, hk, hd, hi, hr⟩ |
    ⟨hc, hk, hdi, o, hs, hr⟩ | ⟨hc, hk, hdi, hs, hr⟩
  · rw [hr]
    simp [UnsubscribeReference, hc, Outcome.kind, Event.isTransmit]
  · rw [hr]
    simp [UnsubscribeReference, hc, hk, Outcome.kind, traceChecked, Event.isTransmit]
  · rw [hr]
    simp [UnsubscribeReference, hc, hk, hd, hi, Outcome.kind, traceChecked, Event.isTransmit]
  · have hpf : c.hasSub (Headers.Contains h "id").1 = false ↔
        (Headers.Contains h "id").1 ∉ c.subs := by
      rw [← hmem]; simp
    have h3 : ¬((Headers.Contains h "destination").2 = false ∧
        (Headers.Contains h "id").2 = false) := by
      rintro ⟨h1, h2⟩
      rcases hdi with hx | hx
      · rw [h1] at hx; exact Bool.noConfusion hx
      · rw [h2] at hx; exact Bool.noConfusion hx
    rw [hr]
    rw [switch_spec] at hs
    simp only [hpf] at hs
    simp only [UnsubscribeReference, hc, hk, if_neg h3, Bool.true_eq_false, if_false]
    split_ifs at hs ⊢ <;> cases hs <;>
      simp [Outcome.kind, traceProbed, Event.isTransmit]
  · obtain ⟨hv, hp, hd10, hi1x⟩ := switch_eq_none hs
    have hpf : c.hasSub (Headers.Contains h "id").1 = false ↔
        (Headers.Contains h "id").1 ∉ c.subs := by
      rw [← hmem]; simp
    have h3 : ¬((Headers.Contains h "destination").2 = false ∧
        (Headers.Contains h "id").2 = false) := by
      rintro ⟨h1, h2⟩
      rcases hdi with hx | hx
      · rw [h1] at hx; exact Bool.noConfusion hx
      · rw [h2] at hx; exact Bool.noConfusion hx
    rw [switch_spec] at hs
    simp only [hpf] at hs
    have href : UnsubscribeReference chk tx c h =
        match tx UNSUBSCRIBE h with
        | some e => ⟨.error e, c.subs, [.transmit UNSUBSCRIBE h]⟩
        | none =>
          ⟨.success,
            if (Headers.Contains h "id").2 = true then c.subs.erase (Headers.Contains h "id").1
            else c.subs,
            [.transmit UNSUBSCRIBE h]⟩ := by
      simp only [UnsubscribeReference, hc, hk, if_neg h3, Bool.true_eq_false, if_false]
      split_ifs at hs ⊢ <;> rfl
    rw [hr, href]
    rcases finish_cases tx c h (Headers.Contains h "id").1 (Headers.Contains h "id").2
      (traceProbed c h) with ⟨e, ht, hF⟩ | ⟨ht, hi, hF⟩ | ⟨ht, hi, n, hl, hn, hF⟩ |
      ⟨ht, hi, msg, hdel, hF⟩
    · rw [hF, ht]
      simp [Outcome.kind, traceProbed, Event.isTransmit]
    · rw [hF, ht]
      simp [Outcome.kind, traceProbed, Event.isTransmit, hi]
    · rw [hF, ht]
      simp [Outcome.kind, traceProbed, Event.isTransmit, hi]
    · have := deleteSubscription_of_open (hopen hi (hp hi))
      rw [this] at hdel
      simp at hdel

/-- C13 as amended, at version 1.2 with a registered id on an open channel:
both give success and erase `sub-1`. -/
theorem Unsubscribe_eq_reference_witness :
    conn12.chanOpen (conn12.subsAt (Headers.Contains hdrBoth "id").1) = true ∧
    (Unsubscribe checkOk sendOk conn12 hdrBoth).outcome.kind =
      (UnsubscribeReference checkOk sendOk conn12 hdrBoth).verdict ∧
    (UnsubscribeReference checkOk sendOk conn12 hdrBoth).verdict = .success ∧
    (Unsubscribe checkOk sendOk conn12 hdrBoth).conn.subs =
      (UnsubscribeReference checkOk sendOk conn12 hdrBoth).subs :=
  have w := Unsubscribe_eq_reference checkOk sendOk conn12 hdrBoth (fun _ _ => by decide)
  ⟨by decide, w.1, by decide, w.2.1⟩

/-- C16: from any connection whose registry satisfies the invariant (every
registered channel open, no channel registered under two ids), after every
finite sequence of `Unsubscribe` and `UnsubscribeAuto` calls: the invariant
holds again; a channel of the initial registry is in the registry exactly
when it has not been closed; the trace closes no channel twice and never the
nil channel, and each `close` was on a channel open at the start; no entry
was added or changed; and every entry that left the registry had its channel
closed by a `close` of the trace, the `close` of `deleteSubscription`. -/
theorem close_once_invariant (ks : List Call) (c : Connection) (hinv : c.RegistryInv) :
    (runCalls ks c).1.RegistryInv ∧
    (∀ n, some n ∈ c.chans →
      (some n ∈ (runCalls ks c).1.chans ↔ n ∉ (runCalls ks c).1.closed)) ∧
    (closes (runCalls ks c).2).Nodup ∧
    none ∉ closes (runCalls ks c).2 ∧
    (∀ n, some n ∈ closes (runCalls ks c).2 → n ∉ c.closed) ∧
    (∀ id ch, (runCalls ks c).1.subs.lookup id = some ch → c.subs.lookup id = some ch) ∧
    (∀ id ch, c.subs.lookup id = some ch → (runCalls ks c).1.subs.lookup id = none →
      ch ∈ closes (runCalls ks c).2 ∧ (runCalls ks c).1.chanOpen ch = false) := by
  have R := runCalls_closeOnce ks hinv
  refine ⟨R.inv, ?_, R.nodup, ?_, ?_, R.sub, R.left⟩
  · intro n hn
    constructor
    · intro hm
      have := R.inv.1 _ hm
      simpa [Connection.chanOpen] using this
    · intro hcl
      obtain ⟨id, hid⟩ := mem_chans_iff.1 hn
      cases hk : (runCalls ks c).1.subs.lookup id with
      | none =>
        exfalso
        have := (R.left id _ hid hk).2
        simp [Connection.chanOpen] at this
        exact hcl this
      | some ch' =>
        have := R.sub id ch' hk
        rw [hid] at this
        cases this
        exact mem_chans_of_lookup hk
  · intro hm
    obtain ⟨n, hn, _, _⟩ := R.fresh none hm
    exact Option.noConfusion hn
  · intro n hm
    obtain ⟨m, hm', hn, _⟩ := R.fresh (some n) hm
    cases hm'
    exact hn

/-- C16 on the registry holding `sub-1` and `sub-2`, after four calls: both
channels were closed, once each, and the registry is empty. -/
theorem close_once_invariant_witness :
    conn12.RegistryInv ∧
    (runCalls fourCalls conn12).1.RegistryInv ∧
    closes (runCalls fourCalls conn12).2 = [some 0, some 1] ∧
    (closes (runCalls fourCalls conn12).2).Nodup :=
  have w := close_once_invariant fourCalls conn12 (by decide)
  ⟨by decide, w.1, by decide, w.2.2.1⟩

/-- C12: for every session state, every header slice of the caller and every
way the call ends (success, an error value, a panic), the content of the
caller's slice after `Unsubscribe` is its content before, as is the content
of every other slice that existed; and the header set handed to the
transmitter, when it is invoked, is the caller's.  The transmitter is the
one of the specification, which clones before use, driving a wire that may
rewrite whatever it is given. -/
theorem Unsubscribe_headers_not_mutated (chk : Headers → String → Option Error)
    (wire : String → Headers → Option Error × Headers) (c : Connection) (m : HeaderHeap)
    (a : Nat) (ha : a < m.length) :
    HeaderHeap.read (UnsubscribeAt chk wire c m a).2 a = HeaderHeap.read m a ∧
    (∀ b, b < m.length →
      HeaderHeap.read (UnsubscribeAt chk wire c m a).2 b = HeaderHeap.read m b) ∧
    ((UnsubscribeAt chk wire c m a).1.trace.filter Event.isTransmit = [] ∨
      (UnsubscribeAt chk wire c m a).1.trace.filter Event.isTransmit =
        [.transmit UNSUBSCRIBE (HeaderHeap.read m a)]) := by
  have hall : ∀ b, b < m.length →
      HeaderHeap.read (UnsubscribeAt chk wire c m a).2 b = HeaderHeap.read m b := by
    intro b hb
    unfold UnsubscribeAt
    simp only
    split_ifs
    · exact transmitCommon_read wire m UNSUBSCRIBE a b hb
    · rfl
  exact ⟨hall a ha, hall, transmits_of_Unsubscribe chk _ c _⟩

/-- C12 with a wire that overwrites the headers it is given: the call
succeeds, the transmitter ran, and the caller's slice still reads
`destination: /queue/a, id: sub-1`. -/
theorem Unsubscribe_headers_not_mutated_witness :
    0 < [hdrBoth].length ∧
    (UnsubscribeAt checkOk wireScribble conn12 [hdrBoth] 0).1.outcome = .returned none ∧
    (UnsubscribeAt checkOk wireScribble conn12 [hdrBoth] 0).2 =
      [hdrBoth, [("content-length", "0")]] ∧
    HeaderHeap.read (UnsubscribeAt checkOk wireScribble conn12 [hdrBoth] 0).2 0 = hdrBoth :=
  ⟨by decide, by decide, by decide,
    (Unsubscribe_headers_not_mutated checkOk wireScribble conn12 [hdrBoth] 0 (by decide)).1⟩

end Stompngo
